import Mathlib

/-!
Verification development for the TrendRadar HTML report module
(`trendradar/report/html.py`).

This file shallowly embeds the content-composition engine
(`render_html_content` with its nested builders and the region-assembly
loop) and the client-side segmentation engine (`saveAsMultipleImages` in
the emitted script), and proves the stated properties about them.

Conventions:
* Python strings are Lean `String`s (lists of characters).
* JS numbers used by the segmentation pass are embedded as `Int`
  (the algorithm only adds, subtracts and compares them).
* Python dictionary access `d["k"]` on a possibly-missing key is embedded
  as an `Except String` computation failing like a `KeyError`;
  `d.get("k", default)` is embedded as `Option.getD`.
* Helpers that live in repository modules outside `src/` or in the Python
  standard library are modelled from the spec; their doc comments say so.
-/

/-! String scanning utilities (Python `in`, `str.find`, `str.replace`). -/

def findSub (pat : List Char) : List Char → Option Nat
  | [] => if pat.isPrefixOf ([] : List Char) then some 0 else none
  | c :: t =>
    if pat.isPrefixOf (c :: t) then some 0
    else (findSub pat t).map (· + 1)

def containsSub (pat s : List Char) : Bool := (findSub pat s).isSome

/-- Work loop of Python `str.replace`, structurally recursive on a fuel
that the wrapper sets to the string length (each step consumes at least
one character, so the fuel never runs out on the wrapper's calls). -/
def replaceAllFuel (pat rep : List Char) : Nat → List Char → List Char
  | _, [] => []
  | 0, s => s
  | Nat.succ f, c :: t =>
    if pat ≠ [] ∧ pat.isPrefixOf (c :: t) then
      rep ++ replaceAllFuel pat rep f ((c :: t).drop pat.length)
    else
      c :: replaceAllFuel pat rep f t

/-- Python's `s.replace(pat, rep)` for a non-empty `pat` (every call site
in the source passes a non-empty literal pattern): replaces all
non-overlapping occurrences, scanning left to right. -/
def replaceAll (pat rep s : List Char) : List Char :=
  replaceAllFuel pat rep s.length s

def pyReplace (s pat rep : String) : String := ⟨replaceAll pat.data rep.data s.data⟩

def concatAll : List String → String
  | [] => ""
  | s :: t => s ++ concatAll t

/-- Modelled from the spec: `html_escape` lives in
`trendradar/report/helpers.py`, which is outside the core module; the spec
only requires that record text is inserted as escaped display text, so the
model performs the standard HTML escaping of the five special characters. -/
def escapeChar (c : Char) : List Char :=
  if c = '&' then "&amp;".data
  else if c = '<' then "&lt;".data
  else if c = '>' then "&gt;".data
  else if c = '"' then "&quot;".data
  else if c = '\x27' then "&#x27;".data
  else [c]

/-- Modelled from the spec: see `escapeChar`. -/
def html_escape (s : String) : String := ⟨(s.data.map escapeChar).flatten⟩

/-- Modelled from the spec: `convert_time_for_display` lives in
`trendradar/utils/time.py`, outside the core; per its use in html.py
(line 1213: "convert HH-MM to HH:MM") it rewrites the dashes of a
clock-time token to colons. -/
def convert_time_for_display (s : String) : String :=
  ⟨s.data.map (fun c => if c = '-' then ':' else c)⟩

/-- Two-digit zero-padded decimal rendering used by `%m`, `%d`, `%H`, `%M`. -/
def pad2 (n : Nat) : String := if n < 10 then "0" ++ toString n else toString n

/-- The calendar fields of a Python `datetime` that this module consumes. -/
structure PyDateTime where
  year : Nat
  month : Nat
  day : Nat
  hour : Nat
  minute : Nat
  second : Nat
deriving DecidableEq, Repr

/-- Python `datetime.strftime("%m-%d %H:%M")`. -/
def strftime_md_hm (d : PyDateTime) : String :=
  pad2 d.month ++ "-" ++ pad2 d.day ++ " " ++ pad2 d.hour ++ ":" ++ pad2 d.minute

/-- Python `dict[key]` on a possibly-missing key: a `KeyError` aborts the
rendering call. -/
def getKey {α : Type} (o : Option α) (k : String) : Except String α :=
  match o with
  | some v => Except.ok v
  | none => Except.error ("KeyError: " ++ k)

/-- Python `min` on a list known non-empty at every call site (the callers
guard with `if ranks:`); the value on `[]` is never used. -/
def listMin : List Int → Int
  | [] => 0
  | x :: xs => xs.foldl min x

/-- Python `max`, as `listMin`. -/
def listMax : List Int → Int
  | [] => 0
  | x :: xs => xs.foldl max x

def digitVal (c : Char) : Option Nat :=
  if '0' ≤ c ∧ c ≤ '9' then some (c.toNat - '0'.toNat) else none

def parseDigits : Nat → Nat → List Char → Option (Nat × List Char)
  | 0, acc, s => some (acc, s)
  | Nat.succ m, acc, s =>
    match s with
    | [] => none
    | c :: t =>
      match digitVal c with
      | some d => parseDigits m (acc * 10 + d) t
      | none => none

def expectChar (c : Char) : List Char → Option (List Char)
  | [] => none
  | x :: t => if x = c then some t else none

/-- Optional fractional-seconds suffix `.d{1,6}`. -/
def dropFrac : List Char → Option (List Char)
  | '.' :: t =>
    let ds := t.takeWhile (fun c => (digitVal c).isSome)
    if 1 ≤ ds.length ∧ ds.length ≤ 6 then some (t.drop ds.length) else none
  | r => some r

/-- An empty tail or a UTC-offset tail `±HH:MM`. -/
def validTzTail : List Char → Bool
  | [] => true
  | c :: t =>
    (c = '+' || c = '-') &&
    (match parseDigits 2 0 t with
     | some (hh, ':' :: t2) =>
       (match parseDigits 2 0 t2 with
        | some (mm, rest) => decide (hh ≤ 23) && decide (mm ≤ 59) && rest.isEmpty
        | none => false)
     | _ => false)

/-- Modelled from the spec: `datetime.fromisoformat` is the Python
standard library's ISO-8601 parser, external to the repository; the spec
says the renderer parses a full ISO timestamp to calendar fields and falls
back to the raw string on failure. The model accepts
`YYYY-MM-DDTHH:MM[:SS[.ffffff]][±HH:MM]` with in-range fields and rejects
everything else. -/
def datetime_fromisoformat (s : String) : Option PyDateTime := do
  let (y, r) ← parseDigits 4 0 s.data
  let r ← expectChar '-' r
  let (mo, r) ← parseDigits 2 0 r
  let r ← expectChar '-' r
  let (d, r) ← parseDigits 2 0 r
  let r ← expectChar 'T' r
  let (h, r) ← parseDigits 2 0 r
  let r ← expectChar ':' r
  let (mi, r) ← parseDigits 2 0 r
  let (sec, r) ←
    match r with
    | ':' :: r' => do
      let (sec, r'') ← parseDigits 2 0 r'
      let r3 ← dropFrac r''
      pure (sec, r3)
    | _ => pure (0, r)
  if validTzTail r ∧ 1 ≤ mo ∧ mo ≤ 12 ∧ 1 ≤ d ∧ d ≤ 31 ∧ h ≤ 23 ∧ mi ≤ 59 ∧ sec ≤ 59 then
    pure { year := y, month := mo, day := d, hour := h, minute := mi, second := sec }
  else
    none

/-! Input record shapes.

Python passes dictionaries; fields the code accesses with `.get` are
`Option` fields read with `getD`, fields it indexes directly are either
required structure fields or `Option` fields read with `getKey` (which
fails like the `KeyError` the indexing would raise). -/

/-- One hotlist/new-item/RSS title record (`title_data`). -/
structure TitleData where
  title : Option String := none
  url : Option String := none
  mobile_url : Option String := none
  source_name : Option String := none
  matched_keyword : Option String := none
  ranks : Option (List Int) := none
  rank_threshold : Option Int := none
  time_display : Option String := none
  count : Option Int := none
  is_new : Option Bool := none
deriving DecidableEq

/-- One keyword-group entry of `report_data["stats"]`; `word`, `count` and
`titles` are always indexed directly and present in the upstream data. -/
structure Stat where
  word : String
  count : Int
  titles : List TitleData
deriving DecidableEq

/-- One per-source group of `report_data["new_titles"]`; `source_name` is
indexed directly (line 934), so a missing key raises. -/
structure SourceNewTitles where
  source_name : Option String := none
  titles : List TitleData
deriving DecidableEq

/-- The `report_data` dictionary. -/
structure ReportData where
  stats : List Stat
  new_titles : List SourceNewTitles
  failed_ids : List String
  total_new_count : Int
deriving DecidableEq

/-- One RSS stat group (read only with `.get`, lines 1019-1051). -/
structure RssStat where
  word : Option String := none
  count : Option Int := none
  titles : Option (List TitleData) := none
deriving DecidableEq

/-- One standalone platform item (read only with `.get`, lines 1171-1177). -/
structure StandaloneItem where
  title : Option String := none
  url : Option String := none
  mobileUrl : Option String := none
  rank : Option Int := none
  ranks : Option (List Int) := none
  first_time : Option String := none
  last_time : Option String := none
  count : Option Int := none
deriving DecidableEq

/-- One standalone hotlist platform (lines 1156-1158). -/
structure StandalonePlatform where
  id : Option String := none
  name : Option String := none
  items : Option (List StandaloneItem) := none
deriving DecidableEq

/-- One standalone RSS feed item (lines 1261-1264). -/
structure FeedItem where
  title : Option String := none
  url : Option String := none
  published_at : Option String := none
  author : Option String := none
deriving DecidableEq

/-- One standalone RSS feed (lines 1247-1249). -/
structure StandaloneFeed where
  id : Option String := none
  name : Option String := none
  items : Option (List FeedItem) := none
deriving DecidableEq

/-- The `standalone_data` dictionary (lines 1134-1135). -/
structure StandaloneData where
  platforms : Option (List StandalonePlatform) := none
  rss_feeds : Option (List StandaloneFeed) := none
deriving DecidableEq

/-- The `update_info` dictionary (indexed directly, lines 1376-1380). -/
structure UpdateInfo where
  remote_version : String
  current_version : String
deriving DecidableEq

/-- Modelled from the spec: the AI analysis result object is produced and
formatted by external collaborators (`trendradar/ai/formatter.py`, not in
the core); the spec treats its rendered output as an opaque content block,
so the model carries the pre-rendered block verbatim. -/
structure AIAnalysis where
  rendered : String
deriving DecidableEq

/-- Modelled from the spec: see `AIAnalysis`. -/
def render_ai_analysis_html_rich (a : AIAnalysis) : String := a.rendered
def lit55 : String :=
  "\n    <!DOCTYPE html>\n    <html>\n    <head>\n        <meta charset=\"UTF-8\">\n        <meta name=\"viewport\" content=\"width=device-width, initial-scale=1.0\">\n        <title>熱點新聞分析</title>\n        <script src=\"https://cdnjs.cloudflare.com/ajax/libs/html2canvas/1.4.1/html2canvas.min.js\" integrity=\"sha512-BNaRQnYJYiPSqHHDb58B0yaPfCu+Wgds8Gp/gU33kqBtgNS4tSPHuGibyoeqMV/TJlSKda6FXzoEyYGjTe+vXA==\" crossorigin=\"anonymous\" referrerpolicy=\"no-referrer\"></script>\n        <style>\n            * \x7b box-sizing: border-box; \x7d\n            body \x7b\n                font-family: -apple-system, BlinkMacSystemFont, \x27Segoe UI\x27, system-ui, sans-serif;\n                margin: 0;\n                padding: 16px;\n                background: #fafafa;\n                color: #333;\n                line-height: 1.5;\n            \x7d\n\n            .container \x7b\n                max-width: 600px;\n                margin: 0 auto;\n                background: white;\n                border-radius: 12px;\n                overflow: hidden;\n                box-shadow: 0 2px 16px rgba(0,0,0,0.06);\n            \x7d\n\n            .header \x7b\n                background: linear-gradient(135deg, #4f46e5 0%, #7c3aed 100%);\n                color: white;\n                padding: 32px 24px;\n                text-align: center;\n                position: relative;\n            \x7d\n\n            .save-buttons \x7b\n                position: absolute;\n                top: 16px;\n                right: 16px;\n                display: flex;\n                gap: 8px;\n            \x7d\n\n            .save-btn \x7b\n                background: rgba(255, 255, 255, 0.2);\n                border: 1px solid rgba(255, 255, 255, 0.3);\n                color: white;\n                padding: 8px 16px;\n                border-radius: 6px;\n                cursor: pointer;\n                font-size: 13px;\n                font-weight: 500;\n                transition: all 0.2s ease;\n                backdrop-filter: blur(10px);\n                white-space: nowrap;\n            \x7d\n\n            .save-btn:hover \x7b\n                background: rgba(255, 255, 255, 0.3);\n                border-color: rgba(255, 255, 255, 0.5);\n                transform: translateY(-1px);\n            \x7d\n\n            .save-btn:active \x7b\n                transform: translateY(0);\n            \x7d\n\n            .save-btn:disabled \x7b\n                opacity: 0.6;\n                cursor: not-allowed;\n            \x7d\n\n            .header-title \x7b\n                font-size: 22px;\n                font-weight: 700;\n                margin: 0 0 20px 0;\n            \x7d\n\n            .header-info \x7b\n                display: grid;\n                grid-template-columns: 1fr 1fr;\n                gap: 16px;\n                font-size: 14px;\n                opacity: 0.95;\n            \x7d\n\n            .info-item \x7b\n                text-align: center;\n            \x7d\n\n            .info-label \x7b\n                display: block;\n                font-size: 12px;\n                opacity: 0.8;\n                margin-bottom: 4px;\n            \x7d\n\n            .info-value \x7b\n                font-weight: 600;\n                font-size: 16px;\n            \x7d\n\n            .content \x7b\n                padding: 24px;\n            \x7d\n\n            .word-group \x7b\n                margin-bottom: 40px;\n            \x7d\n\n            .word-group:first-child \x7b\n                margin-top: 0;\n            \x7d\n\n            .word-header \x7b\n                display: flex;\n                align-items: center;\n                justify-content: space-between;\n                margin-bottom: 20px;\n                padding-bottom: 8px;\n                border-bottom: 1px solid #f0f0f0;\n            \x7d\n\n            .word-info \x7b\n                display: flex;\n                align-items: center;\n                gap: 12px;\n            \x7d\n\n            .word-name \x7b\n                font-size: 17px;\n                font-weight: 600;\n                color: #1a1a1a;\n            \x7d\n\n            .word-count \x7b\n                color: #666;\n                font-size: 13px;\n                font-weight: 500;\n            \x7d\n\n            .word-count.hot \x7b color: #dc2626; font-weight: 600; \x7d\n            .word-count.warm \x7b color: #ea580c; font-weight: 600; \x7d\n\n            .word-index \x7b\n                color: #999;\n                font-size: 12px;\n            \x7d\n\n            .news-item \x7b\n                margin-bottom: 20px;\n                padding: 16px 0;\n                border-bottom: 1px solid #f5f5f5;\n                position: relative;\n                display: flex;\n                gap: 12px;\n                align-items: center;\n            \x7d\n\n            .news-item:last-child \x7b\n                border-bottom: none;\n            \x7d\n\n            .news-item.new::after \x7b\n                content: \"NEW\";\n                position: absolute;\n                top: 12px;\n                right: 0;\n                background: #fbbf24;\n                color: #92400e;\n                font-size: 9px;\n                font-weight: 700;\n                padding: 3px 6px;\n                border-radius: 4px;\n                letter-spacing: 0.5px;\n            \x7d\n\n            .news-number \x7b\n                color: #999;\n                font-size: 13px;\n                font-weight: 600;\n                min-width: 20px;\n                text-align: center;\n                flex-shrink: 0;\n                background: #f8f9fa;\n                border-radius: 50%;\n                width: 24px;\n                height: 24px;\n                display: flex;\n                align-items: center;\n                justify-content: center;\n                align-self: flex-start;\n                margin-top: 8px;\n            \x7d\n\n            .news-content \x7b\n                flex: 1;\n                min-width: 0;\n                padding-right: 40px;\n            \x7d\n\n            .news-item.new .news-content \x7b\n                padding-right: 50px;\n            \x7d\n\n            .news-header \x7b\n                display: flex;\n                align-items: center;\n                gap: 8px;\n                margin-bottom: 8px;\n                flex-wrap: wrap;\n            \x7d\n\n            .source-name \x7b\n                color: #666;\n                font-size: 12px;\n                font-weight: 500;\n            \x7d\n\n            .keyword-tag \x7b\n                color: #2563eb;\n                font-size: 12px;\n                font-weight: 500;\n                background: #eff6ff;\n                padding: 2px 6px;\n                border-radius: 4px;\n            \x7d\n\n            .rank-num \x7b\n                color: #fff;\n                background: #6b7280;\n                font-size: 10px;\n                font-weight: 700;\n                padding: 2px 6px;\n                border-radius: 10px;\n                min-width: 18px;\n                text-align: center;\n            \x7d\n\n            .rank-num.top \x7b background: #dc2626; \x7d\n            .rank-num.high \x7b background: #ea580c; \x7d\n\n            .time-info \x7b\n                color: #999;\n                font-size: 11px;\n            \x7d\n\n            .count-info \x7b\n                color: #059669;\n                font-size: 11px;\n                font-weight: 500;\n            \x7d\n\n            .news-title \x7b\n                font-size: 15px;\n                line-height: 1.4;\n                color: #1a1a1a;\n                margin: 0;\n            \x7d\n\n            .news-link \x7b\n                color: #2563eb;\n                text-decoration: none;\n            \x7d\n\n            .news-link:hover \x7b\n                text-decoration: underline;\n            \x7d\n\n            .news-link:visited \x7b\n                color: #7c3aed;\n            \x7d\n\n            /* 通用區域分割線樣式 */\n            .section-divider \x7b\n                margin-top: 32px;\n                padding-top: 24px;\n                border-top: 2px solid #e5e7eb;\n            \x7d\n\n            /* 熱榜統計區樣式 */\n            .hotlist-section \x7b\n                /* 默認無邊框，由 section-divider 動態添加 */\n            \x7d\n\n            .new-section \x7b\n                margin-top: 40px;\n                padding-top: 24px;\n            \x7d\n\n            .new-section-title \x7b\n                color: #1a1a1a;\n                font-size: 16px;\n                font-weight: 600;\n                margin: 0 0 20px 0;\n            \x7d\n\n            .new-source-group \x7b\n                margin-bottom: 24px;\n            \x7d\n\n            .new-source-title \x7b\n                color: #666;\n                font-size: 13px;\n                font-weight: 500;\n                margin: 0 0 12px 0;\n                padding-bottom: 6px;\n                border-bottom: 1px solid #f5f5f5;\n            \x7d\n\n            .new-item \x7b\n                display: flex;\n                align-items: center;\n                gap: 12px;\n                padding: 8px 0;\n                border-bottom: 1px solid #f9f9f9;\n            \x7d\n\n            .new-item:last-child \x7b\n                border-bottom: none;\n            \x7d\n\n            .new-item-number \x7b\n                color: #999;\n                font-size: 12px;\n                font-weight: 600;\n                min-width: 18px;\n                text-align: center;\n                flex-shrink: 0;\n                background: #f8f9fa;\n                border-radius: 50%;\n                width: 20px;\n                height: 20px;\n                display: flex;\n                align-items: center;\n                justify-content: center;\n            \x7d\n\n            .new-item-rank \x7b\n                color: #fff;\n                background: #6b7280;\n                font-size: 10px;\n                font-weight: 700;\n                padding: 3px 6px;\n                border-radius: 8px;\n                min-width: 20px;\n                text-align: center;\n                flex-shrink: 0;\n            \x7d\n\n            .new-item-rank.top \x7b background: #dc2626; \x7d\n            .new-item-rank.high \x7b background: #ea580c; \x7d\n\n            .new-item-content \x7b\n                flex: 1;\n                min-width: 0;\n            \x7d\n\n            .new-item-title \x7b\n                font-size: 14px;\n                line-height: 1.4;\n                color: #1a1a1a;\n                margin: 0;\n            \x7d\n\n            .error-section \x7b\n                background: #fef2f2;\n                border: 1px solid #fecaca;\n                border-radius: 8px;\n                padding: 16px;\n                margin-bottom: 24px;\n            \x7d\n\n            .error-title \x7b\n                color: #dc2626;\n                font-size: 14px;\n                font-weight: 600;\n                margin: 0 0 8px 0;\n            \x7d\n\n            .error-list \x7b\n                list-style: none;\n                padding: 0;\n                margin: 0;\n            \x7d\n\n            .error-item \x7b\n                color: #991b1b;\n                font-size: 13px;\n                padding: 2px 0;\n                font-family: \x27SF Mono\x27, Consolas, monospace;\n            \x7d\n\n            .footer \x7b\n                margin-top: 32px;\n                padding: 20px 24px;\n                background: #f8f9fa;\n                border-top: 1px solid #e5e7eb;\n                text-align: center;\n            \x7d\n\n            .footer-content \x7b\n                font-size: 13px;\n                color: #6b7280;\n                line-height: 1.6;\n            \x7d\n\n            .footer-link \x7b\n                color: #4f46e5;\n                text-decoration: none;\n                font-weight: 500;\n                transition: color 0.2s ease;\n            \x7d\n\n            .footer-link:hover \x7b\n                color: #7c3aed;\n                text-decoration: underline;\n            \x7d\n\n            .project-name \x7b\n                font-weight: 600;\n                color: #374151;\n            \x7d\n\n            @media (max-width: 480px) \x7b\n                body \x7b padding: 12px; \x7d\n                .header \x7b padding: 24px 20px; \x7d\n                .content \x7b padding: 20px; \x7d\n                .footer \x7b padding: 16px 20px; \x7d\n                .header-info \x7b grid-template-columns: 1fr; gap: 12px; \x7d\n                .news-header \x7b gap: 6px; \x7d\n                .news-content \x7b padding-right: 45px; \x7d\n                .news-item \x7b gap: 8px; \x7d\n                .new-item \x7b gap: 8px; \x7d\n                .news-number \x7b width: 20px; height: 20px; font-size: 12px; \x7d\n                .save-buttons \x7b\n                    position: static;\n                    margin-bottom: 16px;\n                    display: flex;\n                    gap: 8px;\n                    justify-content: center;\n                    flex-direction: column;\n                    width: 100%;\n                \x7d\n                .save-btn \x7b\n                    width: 100%;\n                \x7d\n            \x7d\n\n            /* RSS 訂閱內容樣式 */\n            .rss-section \x7b\n                margin-top: 32px;\n                padding-top: 24px;\n            \x7d\n\n            .rss-section-header \x7b\n                display: flex;\n                align-items: center;\n                justify-content: space-between;\n                margin-bottom: 20px;\n            \x7d\n\n            .rss-section-title \x7b\n                font-size: 18px;\n                font-weight: 600;\n                color: #059669;\n            \x7d\n\n            .rss-section-count \x7b\n                color: #6b7280;\n                font-size: 14px;\n            \x7d\n\n            .feed-group \x7b\n                margin-bottom: 24px;\n            \x7d\n\n            .feed-group:last-child \x7b\n                margin-bottom: 0;\n            \x7d\n\n            .feed-header \x7b\n                display: flex;\n                align-items: center;\n                justify-content: space-between;\n                margin-bottom: 12px;\n                padding-bottom: 8px;\n                border-bottom: 2px solid #10b981;\n            \x7d\n\n            .feed-name \x7b\n                font-size: 15px;\n                font-weight: 600;\n                color: #059669;\n            \x7d\n\n            .feed-count \x7b\n                color: #666;\n                font-size: 13px;\n                font-weight: 500;\n            \x7d\n\n            .rss-item \x7b\n                margin-bottom: 12px;\n                padding: 14px;\n                background: #f0fdf4;\n                border-radius: 8px;\n                border-left: 3px solid #10b981;\n            \x7d\n\n            .rss-item:last-child \x7b\n                margin-bottom: 0;\n            \x7d\n\n            .rss-meta \x7b\n                display: flex;\n                align-items: center;\n                gap: 12px;\n                margin-bottom: 6px;\n                flex-wrap: wrap;\n            \x7d\n\n            .rss-time \x7b\n                color: #6b7280;\n                font-size: 12px;\n            \x7d\n\n            .rss-author \x7b\n                color: #059669;\n                font-size: 12px;\n                font-weight: 500;\n            \x7d\n\n            .rss-title \x7b\n                font-size: 14px;\n                line-height: 1.5;\n                margin-bottom: 6px;\n            \x7d\n\n            .rss-link \x7b\n                color: #1f2937;\n                text-decoration: none;\n                font-weight: 500;\n            \x7d\n\n            .rss-link:hover \x7b\n                color: #059669;\n                text-decoration: underline;\n            \x7d\n\n            .rss-summary \x7b\n                font-size: 13px;\n                color: #6b7280;\n                line-height: 1.5;\n                margin: 0;\n                display: -webkit-box;\n                -webkit-line-clamp: 2;\n                -webkit-box-orient: vertical;\n                overflow: hidden;\n            \x7d\n\n            /* 獨立展示區樣式 - 復用熱點詞彙統計區樣式 */\n            .standalone-section \x7b\n                margin-top: 32px;\n                padding-top: 24px;\n            \x7d\n\n            .standalone-section-header \x7b\n                display: flex;\n                align-items: center;\n                justify-content: space-between;\n                margin-bottom: 20px;\n            \x7d\n\n            .standalone-section-title \x7b\n                font-size: 18px;\n                font-weight: 600;\n                color: #059669;\n            \x7d\n\n            .standalone-section-count \x7b\n                color: #6b7280;\n                font-size: 14px;\n            \x7d\n\n            .standalone-group \x7b\n                margin-bottom: 40px;\n            \x7d\n\n            .standalone-group:last-child \x7b\n                margin-bottom: 0;\n            \x7d\n\n            .standalone-header \x7b\n                display: flex;\n                align-items: center;\n                justify-content: space-between;\n                margin-bottom: 20px;\n                padding-bottom: 8px;\n                border-bottom: 1px solid #f0f0f0;\n            \x7d\n\n            .standalone-name \x7b\n                font-size: 17px;\n                font-weight: 600;\n                color: #1a1a1a;\n            \x7d\n\n            .standalone-count \x7b\n                color: #666;\n                font-size: 13px;\n                font-weight: 500;\n            \x7d\n\n            /* AI 分析區塊樣式 */\n            .ai-section \x7b\n                margin-top: 32px;\n                padding: 24px;\n                background: linear-gradient(135deg, #f0f9ff 0%, #e0f2fe 100%);\n                border-radius: 12px;\n                border: 1px solid #bae6fd;\n            \x7d\n\n            .ai-section-header \x7b\n                display: flex;\n                align-items: center;\n                gap: 10px;\n                margin-bottom: 20px;\n            \x7d\n\n            .ai-section-title \x7b\n                font-size: 18px;\n                font-weight: 600;\n                color: #0369a1;\n            \x7d\n\n            .ai-section-badge \x7b\n                background: #0ea5e9;\n                color: white;\n                font-size: 11px;\n                font-weight: 600;\n                padding: 3px 8px;\n                border-radius: 4px;\n            \x7d\n\n            .ai-block \x7b\n                margin-bottom: 16px;\n                padding: 16px;\n                background: white;\n                border-radius: 8px;\n                box-shadow: 0 1px 3px rgba(0,0,0,0.05);\n            \x7d\n\n            .ai-block:last-child \x7b\n                margin-bottom: 0;\n            \x7d\n\n            .ai-block-title \x7b\n                font-size: 14px;\n                font-weight: 600;\n                color: #0369a1;\n                margin-bottom: 8px;\n            \x7d\n\n            .ai-block-content \x7b\n                font-size: 14px;\n                line-height: 1.6;\n                color: #334155;\n                white-space: pre-wrap;\n            \x7d\n\n            .ai-error \x7b\n                padding: 16px;\n                background: #fef2f2;\n                border: 1px solid #fecaca;\n                border-radius: 8px;\n                color: #991b1b;\n                font-size: 14px;\n            \x7d\n        </style>\n    </head>\n    <body>\n        <div class=\"container\">\n            <div class=\"header\">\n                <div class=\"save-buttons\">\n                    <button class=\"save-btn\" onclick=\"saveAsImage()\">保存為圖片</button>\n                    <button class=\"save-btn\" onclick=\"saveAsMultipleImages()\">分段保存</button>\n                </div>\n                <div class=\"header-title\">熱點新聞分析</div>\n                <div class=\"header-info\">\n                    <div class=\"info-item\">\n                        <span class=\"info-label\">報告類型</span>\n                        <span class=\"info-value\">"

def lit758 : String :=
  "</span>\n                    </div>\n                    <div class=\"info-item\">\n                        <span class=\"info-label\">新聞總數</span>\n                        <span class=\"info-value\">"

def lit769 : String :=
  "</span>\n                    </div>\n                    <div class=\"info-item\">\n                        <span class=\"info-label\">熱點新聞</span>\n                        <span class=\"info-value\">"

def lit777 : String :=
  "</span>\n                    </div>\n                    <div class=\"info-item\">\n                        <span class=\"info-label\">生成時間</span>\n                        <span class=\"info-value\">"

def lit790 : String :=
  "</span>\n                    </div>\n                </div>\n            </div>\n\n            <div class=\"content\">"

def lit799 : String :=
  "\n                <div class=\"error-section\">\n                    <div class=\"error-title\">⚠️ 請求失敗的平台</div>\n                    <ul class=\"error-list\">"


def lit804_a : String :=
  "<li class=\"error-item\">"

def lit804_b : String :=
  "</li>"

def lit805 : String :=
  "\n                    </ul>\n                </div>"


def lit827_a : String :=
  "\n                <div class=\"word-group\">\n                    <div class=\"word-header\">\n                        <div class=\"word-info\">\n                            <div class=\"word-name\">"

def lit827_b : String :=
  "</div>\n                            <div class=\"word-count "

def lit827_c : String :=
  "\">"

def lit827_d : String :=
  " 條</div>\n                        </div>\n                        <div class=\"word-index\">"

def lit827_e : String :=
  "/"

def lit827_f : String :=
  "</div>\n                    </div>"


def lit842_a : String :=
  "\n                    <div class=\"news-item "

def lit842_b : String :=
  "\">\n                        <div class=\"news-number\">"

def lit842_c : String :=
  "</div>\n                        <div class=\"news-content\">\n                            <div class=\"news-header\">"


def lit851_a : String :=
  "<span class=\"source-name\">"

def lit851_b : String :=
  "</span>"


def lit856_a : String :=
  "<span class=\"keyword-tag\">["

def lit856_b : String :=
  "]</span>"


def lit878_a : String :=
  "<span class=\"rank-num "

def lit878_b : String :=
  "\">"

def lit878_c : String :=
  "</span>"


def lit890_a : String :=
  "<span class=\"time-info\">"

def lit890_b : String :=
  "</span>"


def lit896_a : String :=
  "<span class=\"count-info\">"

def lit896_b : String :=
  "次</span>"

def lit898 : String :=
  "\n                            </div>\n                            <div class=\"news-title\">"


def lit908_a : String :=
  "<a href=\""

def lit908_b : String :=
  "\" target=\"_blank\" class=\"news-link\">"

def lit908_c : String :=
  "</a>"

def lit912 : String :=
  "\n                            </div>\n                        </div>\n                    </div>"

def lit917 : String :=
  "\n                </div>"


def lit922_a : String :=
  "\n                <div class=\"hotlist-section\">"

def lit922_b : String :=
  "\n                </div>"


def lit929_a : String :=
  "\n                <div class=\"new-section\">\n                    <div class=\"new-section-title\">本次新增熱點 (共 "

def lit929_b : String :=
  " 條)</div>"


def lit937_a : String :=
  "\n                    <div class=\"new-source-group\">\n                        <div class=\"new-source-title\">"

def lit937_b : String :=
  " · "

def lit937_c : String :=
  "條</div>"


def lit961_a : String :=
  "\n                        <div class=\"new-item\">\n                            <div class=\"new-item-number\">"

def lit961_b : String :=
  "</div>\n                            <div class=\"new-item-rank "

def lit961_c : String :=
  "\">"

def lit961_d : String :=
  "</div>\n                            <div class=\"new-item-content\">\n                                <div class=\"new-item-title\">"


def lit974_a : String :=
  "<a href=\""

def lit974_b : String :=
  "\" target=\"_blank\" class=\"news-link\">"

def lit974_c : String :=
  "</a>"

def lit978 : String :=
  "\n                                </div>\n                            </div>\n                        </div>"

def lit983 : String :=
  "\n                    </div>"

def lit986 : String :=
  "\n                </div>"


def lit1023_a : String :=
  "\n                <div class=\"rss-section\">\n                    <div class=\"rss-section-header\">\n                        <div class=\"rss-section-title\">"

def lit1023_b : String :=
  "</div>\n                        <div class=\"rss-section-count\">"

def lit1023_c : String :=
  " 條</div>\n                    </div>"


def lit1039_a : String :=
  "\n                    <div class=\"feed-group\">\n                        <div class=\"feed-header\">\n                            <div class=\"feed-name\">"

def lit1039_b : String :=
  "</div>\n                            <div class=\"feed-count\">"

def lit1039_c : String :=
  " 條</div>\n                        </div>"

def lit1053 : String :=
  "\n                        <div class=\"rss-item\">\n                            <div class=\"rss-meta\">"


def lit1058_a : String :=
  "<span class=\"rss-time\">"

def lit1058_b : String :=
  "</span>"


def lit1061_a : String :=
  "<span class=\"rss-author\">"

def lit1061_b : String :=
  "</span>"

def lit1064 : String :=
  "<span class=\"rss-author\" style=\"color: #dc2626;\">NEW</span>"

def lit1066 : String :=
  "\n                            </div>\n                            <div class=\"rss-title\">"


def lit1073_a : String :=
  "<a href=\""

def lit1073_b : String :=
  "\" target=\"_blank\" class=\"rss-link\">"

def lit1073_c : String :=
  "</a>"

def lit1077 : String :=
  "\n                            </div>\n                        </div>"

def lit1081 : String :=
  "\n                    </div>"

def lit1084 : String :=
  "\n                </div>"


def lit1148_a : String :=
  "\n                <div class=\"standalone-section\">\n                    <div class=\"standalone-section-header\">\n                        <div class=\"standalone-section-title\">獨立展示區</div>\n                        <div class=\"standalone-section-count\">"

def lit1148_b : String :=
  " 條</div>\n                    </div>"


def lit1162_a : String :=
  "\n                    <div class=\"standalone-group\">\n                        <div class=\"standalone-header\">\n                            <div class=\"standalone-name\">"

def lit1162_b : String :=
  "</div>\n                            <div class=\"standalone-count\">"

def lit1162_c : String :=
  " 條</div>\n                        </div>"


def lit1179_a : String :=
  "\n                        <div class=\"news-item\">\n                            <div class=\"news-number\">"

def lit1179_b : String :=
  "</div>\n                            <div class=\"news-content\">\n                                <div class=\"news-header\">"


def lit1203_a : String :=
  "<span class=\"rank-num "

def lit1203_b : String :=
  "\">"

def lit1203_c : String :=
  "</span>"


def lit1211_a : String :=
  "<span class=\"rank-num "

def lit1211_b : String :=
  "\">"

def lit1211_c : String :=
  "</span>"


def lit1217_a : String :=
  "<span class=\"time-info\">"

def lit1217_b : String :=
  "~"

def lit1217_c : String :=
  "</span>"


def lit1220_a : String :=
  "<span class=\"time-info\">"

def lit1220_b : String :=
  "</span>"


def lit1224_a : String :=
  "<span class=\"count-info\">"

def lit1224_b : String :=
  "次</span>"

def lit1226 : String :=
  "\n                                </div>\n                                <div class=\"news-title\">"


def lit1234_a : String :=
  "<a href=\""

def lit1234_b : String :=
  "\" target=\"_blank\" class=\"news-link\">"

def lit1234_c : String :=
  "</a>"

def lit1238 : String :=
  "\n                                </div>\n                            </div>\n                        </div>"

def lit1243 : String :=
  "\n                    </div>"


def lit1253_a : String :=
  "\n                    <div class=\"standalone-group\">\n                        <div class=\"standalone-header\">\n                            <div class=\"standalone-name\">"

def lit1253_b : String :=
  "</div>\n                            <div class=\"standalone-count\">"

def lit1253_c : String :=
  " 條</div>\n                        </div>"


def lit1266_a : String :=
  "\n                        <div class=\"news-item\">\n                            <div class=\"news-number\">"

def lit1266_b : String :=
  "</div>\n                            <div class=\"news-content\">\n                                <div class=\"news-header\">"


def lit1284_a : String :=
  "<span class=\"time-info\">"

def lit1284_b : String :=
  "</span>"


def lit1288_a : String :=
  "<span class=\"source-name\">"

def lit1288_b : String :=
  "</span>"

def lit1290 : String :=
  "\n                                </div>\n                                <div class=\"news-title\">"


def lit1297_a : String :=
  "<a href=\""

def lit1297_b : String :=
  "\" target=\"_blank\" class=\"news-link\">"

def lit1297_c : String :=
  "</a>"

def lit1301 : String :=
  "\n                                </div>\n                            </div>\n                        </div>"

def lit1306 : String :=
  "\n                    </div>"

def lit1309 : String :=
  "\n                </div>"

def lit1365 : String :=
  "\n            </div>\n\n            <div class=\"footer\">\n                <div class=\"footer-content\">\n                    由 <span class=\"project-name\">TrendRadar</span> 生成 ·\n                    <a href=\"https://github.com/sansan0/TrendRadar\" target=\"_blank\" class=\"footer-link\">\n                        GitHub 開源項目\n                    </a>"


def lit1376_a : String :=
  "\n                    <br>\n                    <span style=\"color: #ea580c; font-weight: 500;\">\n                        發現新版本 "

def lit1376_b : String :=
  "，當前版本 "

def lit1376_c : String :=
  "\n                    </span>"

def lit1382 : String :=
  "\n                </div>\n            </div>\n        </div>\n\n        <script>\n            async function saveAsImage() \x7b\n                const button = event.target;\n                const originalText = button.textContent;\n\n                try \x7b\n                    button.textContent = \x27生成中...\x27;\n                    button.disabled = true;\n                    window.scrollTo(0, 0);\n\n                    // 等待頁面穩定\n                    await new Promise(resolve => setTimeout(resolve, 200));\n\n                    // 截圖前隱藏按鈕\n                    const buttons = document.querySelector(\x27.save-buttons\x27);\n                    buttons.style.visibility = \x27hidden\x27;\n\n                    // 再次等待確保按鈕完全隱藏\n                    await new Promise(resolve => setTimeout(resolve, 100));\n\n                    const container = document.querySelector(\x27.container\x27);\n\n                    const canvas = await html2canvas(container, \x7b\n                        backgroundColor: \x27#ffffff\x27,\n                        scale: 1.5,\n                        useCORS: true,\n                        allowTaint: false,\n                        imageTimeout: 10000,\n                        removeContainer: false,\n                        foreignObjectRendering: false,\n                        logging: false,\n                        width: container.offsetWidth,\n                        height: container.offsetHeight,\n                        x: 0,\n                        y: 0,\n                        scrollX: 0,\n                        scrollY: 0,\n                        windowWidth: window.innerWidth,\n                        windowHeight: window.innerHeight\n                    \x7d);\n\n                    buttons.style.visibility = \x27visible\x27;\n\n                    const link = document.createElement(\x27a\x27);\n                    const now = new Date();\n                    const filename = \x60TrendRadar_熱點新聞分析_$\x7bnow.getFullYear()\x7d$\x7bString(now.getMonth() + 1).padStart(2, \x270\x27)\x7d$\x7bString(now.getDate()).padStart(2, \x270\x27)\x7d_$\x7bString(now.getHours()).padStart(2, \x270\x27)\x7d$\x7bString(now.getMinutes()).padStart(2, \x270\x27)\x7d.png\x60;\n\n                    link.download = filename;\n                    link.href = canvas.toDataURL(\x27image/png\x27, 1.0);\n\n                    // 觸發下載\n                    document.body.appendChild(link);\n                    link.click();\n                    document.body.removeChild(link);\n\n                    button.textContent = \x27保存成功!\x27;\n                    setTimeout(() => \x7b\n                        button.textContent = originalText;\n                        button.disabled = false;\n                    \x7d, 2000);\n\n                \x7d catch (error) \x7b\n                    const buttons = document.querySelector(\x27.save-buttons\x27);\n                    buttons.style.visibility = \x27visible\x27;\n                    button.textContent = \x27保存失敗\x27;\n                    setTimeout(() => \x7b\n                        button.textContent = originalText;\n                        button.disabled = false;\n                    \x7d, 2000);\n                \x7d\n            \x7d\n\n            async function saveAsMultipleImages() \x7b\n                const button = event.target;\n                const originalText = button.textContent;\n                const container = document.querySelector(\x27.container\x27);\n                const scale = 1.5;\n                const maxHeight = 5000 / scale;\n\n                try \x7b\n                    button.textContent = \x27分析中...\x27;\n                    button.disabled = true;\n\n                    // 獲取所有可能的分割元素\n                    const newsItems = Array.from(container.querySelectorAll(\x27.news-item\x27));\n                    const wordGroups = Array.from(container.querySelectorAll(\x27.word-group\x27));\n                    const newSection = container.querySelector(\x27.new-section\x27);\n                    const errorSection = container.querySelector(\x27.error-section\x27);\n                    const header = container.querySelector(\x27.header\x27);\n                    const footer = container.querySelector(\x27.footer\x27);\n\n                    // 計算元素位置和高度\n                    const containerRect = container.getBoundingClientRect();\n                    const elements = [];\n\n                    // 添加header作為必須包含的元素\n                    elements.push(\x7b\n                        type: \x27header\x27,\n                        element: header,\n                        top: 0,\n                        bottom: header.offsetHeight,\n                        height: header.offsetHeight\n                    \x7d);\n\n                    // 添加錯誤信息（如果存在）\n                    if (errorSection) \x7b\n                        const rect = errorSection.getBoundingClientRect();\n                        elements.push(\x7b\n                            type: \x27error\x27,\n                            element: errorSection,\n                            top: rect.top - containerRect.top,\n                            bottom: rect.bottom - containerRect.top,\n                            height: rect.height\n                        \x7d);\n                    \x7d\n\n                    // 按word-group分組處理news-item\n                    wordGroups.forEach(group => \x7b\n                        const groupRect = group.getBoundingClientRect();\n                        const groupNewsItems = group.querySelectorAll(\x27.news-item\x27);\n\n                        // 添加word-group的header部分\n                        const wordHeader = group.querySelector(\x27.word-header\x27);\n                        if (wordHeader) \x7b\n                            const headerRect = wordHeader.getBoundingClientRect();\n                            elements.push(\x7b\n                                type: \x27word-header\x27,\n                                element: wordHeader,\n                                parent: group,\n                                top: groupRect.top - containerRect.top,\n                                bottom: headerRect.bottom - containerRect.top,\n                                height: headerRect.height\n                            \x7d);\n                        \x7d\n\n                        // 添加每個news-item\n                        groupNewsItems.forEach(item => \x7b\n                            const rect = item.getBoundingClientRect();\n                            elements.push(\x7b\n                                type: \x27news-item\x27,\n                                element: item,\n                                parent: group,\n                                top: rect.top - containerRect.top,\n                                bottom: rect.bottom - containerRect.top,\n                                height: rect.height\n                            \x7d);\n                        \x7d);\n                    \x7d);\n\n                    // 添加新增新聞部分\n                    if (newSection) \x7b\n                        const rect = newSection.getBoundingClientRect();\n                        elements.push(\x7b\n                            type: \x27new-section\x27,\n                            element: newSection,\n                            top: rect.top - containerRect.top,\n                            bottom: rect.bottom - containerRect.top,\n                            height: rect.height\n                        \x7d);\n                    \x7d\n\n                    // 添加footer\n                    const footerRect = footer.getBoundingClientRect();\n                    elements.push(\x7b\n                        type: \x27footer\x27,\n                        element: footer,\n                        top: footerRect.top - containerRect.top,\n                        bottom: footerRect.bottom - containerRect.top,\n                        height: footer.offsetHeight\n                    \x7d);\n\n                    // 計算分割點\n                    const segments = [];\n                    let currentSegment = \x7b start: 0, end: 0, height: 0, includeHeader: true \x7d;\n                    let headerHeight = header.offsetHeight;\n                    currentSegment.height = headerHeight;\n\n                    for (let i = 1; i < elements.length; i++) \x7b\n                        const element = elements[i];\n                        const potentialHeight = element.bottom - currentSegment.start;\n\n                        // 檢查是否需要創建新分段\n                        if (potentialHeight > maxHeight && currentSegment.height > headerHeight) \x7b\n                            // 在前一個元素結束處分割\n                            currentSegment.end = elements[i - 1].bottom;\n                            segments.push(currentSegment);\n\n                            // 開始新分段\n                            currentSegment = \x7b\n                                start: currentSegment.end,\n                                end: 0,\n                                height: element.bottom - currentSegment.end,\n                                includeHeader: false\n                            \x7d;\n                        \x7d else \x7b\n                            currentSegment.height = potentialHeight;\n                            currentSegment.end = element.bottom;\n                        \x7d\n                    \x7d\n\n                    // 添加最後一個分段\n                    if (currentSegment.height > 0) \x7b\n                        currentSegment.end = container.offsetHeight;\n                        segments.push(currentSegment);\n                    \x7d\n\n                    button.textContent = \x60生成中 (0/$\x7bsegments.length\x7d)...\x60;\n\n                    // 隱藏保存按鈕\n                    const buttons = document.querySelector(\x27.save-buttons\x27);\n                    buttons.style.visibility = \x27hidden\x27;\n\n                    // 為每個分段生成圖片\n                    const images = [];\n                    for (let i = 0; i < segments.length; i++) \x7b\n                        const segment = segments[i];\n                        button.textContent = \x60生成中 ($\x7bi + 1\x7d/$\x7bsegments.length\x7d)...\x60;\n\n                        // 創建臨時容器用於截圖\n                        const tempContainer = document.createElement(\x27div\x27);\n                        tempContainer.style.cssText = \x60\n                            position: absolute;\n                            left: -9999px;\n                            top: 0;\n                            width: $\x7bcontainer.offsetWidth\x7dpx;\n                            background: white;\n                        \x60;\n                        tempContainer.className = \x27container\x27;\n\n                        // 克隆容器內容\n                        const clonedContainer = container.cloneNode(true);\n\n                        // 移除克隆內容中的保存按鈕\n                        const clonedButtons = clonedContainer.querySelector(\x27.save-buttons\x27);\n                        if (clonedButtons) \x7b\n                            clonedButtons.style.display = \x27none\x27;\n                        \x7d\n\n                        tempContainer.appendChild(clonedContainer);\n                        document.body.appendChild(tempContainer);\n\n                        // 等待DOM更新\n                        await new Promise(resolve => setTimeout(resolve, 100));\n\n                        // 使用html2canvas截取特定區域\n                        const canvas = await html2canvas(clonedContainer, \x7b\n                            backgroundColor: \x27#ffffff\x27,\n                            scale: scale,\n                            useCORS: true,\n                            allowTaint: false,\n                            imageTimeout: 10000,\n                            logging: false,\n                            width: container.offsetWidth,\n                            height: segment.end - segment.start,\n                            x: 0,\n                            y: segment.start,\n                            windowWidth: window.innerWidth,\n                            windowHeight: window.innerHeight\n                        \x7d);\n\n                        images.push(canvas.toDataURL(\x27image/png\x27, 1.0));\n\n                        // 清理臨時容器\n                        document.body.removeChild(tempContainer);\n                    \x7d\n\n                    // 恢復按鈕顯示\n                    buttons.style.visibility = \x27visible\x27;\n\n                    // 下載所有圖片\n                    const now = new Date();\n                    const baseFilename = \x60TrendRadar_熱點新聞分析_$\x7bnow.getFullYear()\x7d$\x7bString(now.getMonth() + 1).padStart(2, \x270\x27)\x7d$\x7bString(now.getDate()).padStart(2, \x270\x27)\x7d_$\x7bString(now.getHours()).padStart(2, \x270\x27)\x7d$\x7bString(now.getMinutes()).padStart(2, \x270\x27)\x7d\x60;\n\n                    for (let i = 0; i < images.length; i++) \x7b\n                        const link = document.createElement(\x27a\x27);\n                        link.download = \x60$\x7bbaseFilename\x7d_part$\x7bi + 1\x7d.png\x60;\n                        link.href = images[i];\n                        document.body.appendChild(link);\n                        link.click();\n                        document.body.removeChild(link);\n\n                        // 延遲一下避免瀏覽器阻止多個下載\n                        await new Promise(resolve => setTimeout(resolve, 100));\n                    \x7d\n\n                    button.textContent = \x60已保存 $\x7bsegments.length\x7d 張圖片!\x60;\n                    setTimeout(() => \x7b\n                        button.textContent = originalText;\n                        button.disabled = false;\n                    \x7d, 2000);\n\n                \x7d catch (error) \x7b\n                    console.error(\x27分段保存失敗:\x27, error);\n                    const buttons = document.querySelector(\x27.save-buttons\x27);\n                    buttons.style.visibility = \x27visible\x27;\n                    button.textContent = \x27保存失敗\x27;\n                    setTimeout(() => \x7b\n                        button.textContent = originalText;\n                        button.disabled = false;\n                    \x7d, 2000);\n                \x7d\n            \x7d\n\n            document.addEventListener(\x27DOMContentLoaded\x27, function() \x7b\n                window.scrollTo(0, 0);\n            \x7d);\n        </script>\n    </body>\n    </html>\n    "

/-! Per-record classifiers and fragments, extracted verbatim from the
rendering paths. -/

/-- Rank tier class of the hotlist path (html.py lines 866-871). -/
def hotlistRankClass (minRank rankThreshold : Int) : String :=
  if minRank ≤ 3 then "top"
  else if minRank ≤ rankThreshold then "high"
  else ""

/-- Rank display text of the hotlist path (lines 873-876). -/
def hotlistRankText (minRank maxRank : Int) : String :=
  if minRank = maxRank then toString minRank
  else toString minRank ++ "-" ++ toString maxRank

/-- Rank tier class of the new-items path (lines 946-952): starts as the
empty class and is upgraded exactly like the hotlist tier. -/
def newItemRankClass (minRank rankThreshold : Int) : String :=
  if minRank ≤ 3 then "top"
  else if minRank ≤ rankThreshold then "high"
  else ""

/-- Rank display text of the new-items path (lines 954-957): keyed on the
length of `ranks`, not on `min = max`. -/
def newItemRankText (ranks : List Int) : String :=
  if ranks.length = 1 then toString (ranks.headD 0)
  else toString (listMin ranks) ++ "-" ++ toString (listMax ranks)

/-- Rank tier class of the standalone path (lines 1191-1196 and
1205-1210), with the threshold fixed at 10. -/
def standaloneRankClass (minRank : Int) : String :=
  if minRank ≤ 3 then "top"
  else if minRank ≤ 10 then "high"
  else ""

/-- Rank display text of the standalone path (lines 1198-1201). -/
def standaloneRankText (minRank maxRank : Int) : String :=
  if minRank = maxRank then toString minRank
  else toString minRank ++ "-" ++ toString maxRank

/-- The hotlist link expression
`title_data.get("mobile_url") or title_data.get("url", "")`
(line 904): the mobile URL wins when it is a non-empty string. -/
def hotlistLinkUrl (td : TitleData) : String :=
  let m := td.mobile_url.getD ""
  if m ≠ "" then m else td.url.getD ""

/-- Same expression in the new-items path (line 970). -/
def newItemLinkUrl (td : TitleData) : String :=
  let m := td.mobile_url.getD ""
  if m ≠ "" then m else td.url.getD ""

/-- The standalone link expression
`item.get("url", "") or item.get("mobileUrl", "")` (line 1172): here
the regular URL wins and `mobileUrl` is only the fallback. -/
def standaloneLinkUrl (it : StandaloneItem) : String :=
  let u := it.url.getD ""
  if u ≠ "" then u else it.mobileUrl.getD ""

/-- The linked-or-plain title fragment shared by the hotlist, new-items
and standalone item paths (lines 906-910, 972-976, 1231-1236,
1294-1299): an anchor when the effective link is non-empty, otherwise the
escaped title as plain text. -/
def newsLinkFragment (link_url escaped_title : String) : String :=
  if link_url ≠ "" then
    lit908_a ++ html_escape link_url ++ lit908_b ++ escaped_title ++ lit908_c
  else escaped_title

/-- The RSS variant with the `rss-link` class (lines 1070-1075). -/
def rssLinkFragment (url escaped_title : String) : String :=
  if url ≠ "" then
    lit1073_a ++ html_escape url ++ lit1073_b ++ escaped_title ++ lit1073_c
  else escaped_title

/-- The standalone platform item's time element (lines 1214-1220): a
range when both times are present and differ, the first time alone when it
is present, nothing otherwise (in particular nothing when only the last
time is present). -/
def standaloneTimeHtml (first_time last_time : String) : String :=
  if first_time ≠ "" ∧ last_time ≠ "" ∧ first_time ≠ last_time then
    lit1217_a ++ html_escape (convert_time_for_display first_time) ++ lit1217_b
      ++ html_escape (convert_time_for_display last_time) ++ lit1217_c
  else if first_time ≠ "" then
    lit1220_a ++ html_escape (convert_time_for_display first_time) ++ lit1220_b
  else ""

/-- The simplified `time_display` of the hotlist path (lines 884-888). -/
def simplifiedTime (time_display : String) : String :=
  pyReplace (pyReplace (pyReplace time_display " ~ " "~") "[" "") "]" ""

/-- The published-time text of a standalone feed item (lines 1273-1282):
an ISO timestamp containing `T` is parsed and reformatted, anything else
(or a parse failure, caught by the bare `except`) stays verbatim. -/
def renderPublishedTimeDisplay (published_at : String) : String :=
  if containsSub "T".data published_at.data then
    match datetime_fromisoformat (pyReplace published_at "Z" "+00:00") with
    | some d => strftime_md_hm d
    | none => published_at
  else published_at

/-- The heat class of a keyword group (lines 817-823). -/
def countClass (count : Int) : String :=
  if count ≥ 10 then "hot"
  else if count ≥ 5 then "warm"
  else ""

/-! Builders. -/

/-- One hotlist news item (html.py lines 838-915). -/
def renderHotlistTitle (display_mode : String) (j : Nat) (td : TitleData) :
    Except String String := do
  let is_new := td.is_new.getD false
  let new_class := if is_new then "new" else ""
  let headFrag := lit842_a ++ new_class ++ lit842_b ++ toString j ++ lit842_c
  let sourceFrag ←
    if display_mode = "keyword" then do
      let sn ← getKey td.source_name "source_name"
      pure (lit851_a ++ html_escape sn ++ lit851_b)
    else
      let matched_keyword := td.matched_keyword.getD ""
      pure (if matched_keyword ≠ "" then
        lit856_a ++ html_escape matched_keyword ++ lit856_b else "")
  let ranks := td.ranks.getD []
  let rankFrag :=
    if ranks ≠ [] then
      let min_rank := listMin ranks
      let max_rank := listMax ranks
      let rank_threshold := td.rank_threshold.getD 10
      lit878_a ++ hotlistRankClass min_rank rank_threshold ++ lit878_b
        ++ hotlistRankText min_rank max_rank ++ lit878_c
    else ""
  let time_display := td.time_display.getD ""
  let timeFrag :=
    if time_display ≠ "" then
      lit890_a ++ html_escape (simplifiedTime time_display) ++ lit890_b
    else ""
  let count_info := td.count.getD 1
  let countFrag :=
    if count_info > 1 then lit896_a ++ toString count_info ++ lit896_b else ""
  let title ← getKey td.title "title"
  let escaped_title := html_escape title
  let linkFrag := newsLinkFragment (hotlistLinkUrl td) escaped_title
  pure (headFrag ++ sourceFrag ++ rankFrag ++ timeFrag ++ countFrag
    ++ lit898 ++ linkFrag ++ lit912)

/-- The numbered item loop of one keyword group (line 838). -/
def renderHotlistTitles (display_mode : String) (j : Nat) :
    List TitleData → Except String String
  | [] => pure ""
  | td :: rest => do
    let s ← renderHotlistTitle display_mode j td
    let r ← renderHotlistTitles display_mode (j + 1) rest
    pure (s ++ r)

/-- One keyword group (lines 814-918). -/
def renderStatBlock (display_mode : String) (total_count : Nat) (i : Nat)
    (stat : Stat) : Except String String := do
  let count_class := countClass stat.count
  let escaped_word := html_escape stat.word
  let titlesHtml ← renderHotlistTitles display_mode 1 stat.titles
  pure (lit827_a ++ escaped_word ++ lit827_b ++ count_class ++ lit827_c
    ++ toString stat.count ++ lit827_d ++ toString i ++ lit827_e
    ++ toString total_count ++ lit827_f ++ titlesHtml ++ lit917)

/-- The group loop (line 814, `enumerate(stats, 1)`). -/
def renderStatBlocks (display_mode : String) (total_count : Nat) (i : Nat) :
    List Stat → Except String String
  | [] => pure ""
  | st :: rest => do
    let s ← renderStatBlock display_mode total_count i st
    let r ← renderStatBlocks display_mode total_count (i + 1) rest
    pure (s ++ r)

/-- The accumulated `stats_html` (lines 810-835). -/
def buildStatsHtml (display_mode : String) (stats : List Stat) :
    Except String String :=
  if stats ≠ [] then renderStatBlocks display_mode stats.length 1 stats
  else pure ""

/-- The hotlist region content: `stats_html` with its outer wrapper when
non-empty (lines 920-924). -/
def buildHotlistSection (display_mode : String) (stats : List Stat) :
    Except String String := do
  let stats_html ← buildStatsHtml display_mode stats
  pure (if stats_html ≠ "" then lit922_a ++ stats_html ++ lit922_b else stats_html)

/-- One new-item row (lines 942-981). -/
def renderNewTitleItem (idx : Nat) (td : TitleData) : Except String String := do
  let ranks := td.ranks.getD []
  let rankInfo :=
    if ranks ≠ [] then
      (newItemRankClass (listMin ranks) (td.rank_threshold.getD 10),
       newItemRankText ranks)
    else ("", "?")
  let title ← getKey td.title "title"
  let escaped_title := html_escape title
  let linkFrag := newsLinkFragment (newItemLinkUrl td) escaped_title
  pure (lit961_a ++ toString idx ++ lit961_b ++ rankInfo.1 ++ lit961_c
    ++ rankInfo.2 ++ lit961_d ++ linkFrag ++ lit978)

/-- The row loop of one source group (line 942, `enumerate(..., 1)`). -/
def renderNewTitleItems (idx : Nat) : List TitleData → Except String String
  | [] => pure ""
  | td :: rest => do
    let s ← renderNewTitleItem idx td
    let r ← renderNewTitleItems (idx + 1) rest
    pure (s ++ r)

/-- One source group of the new-items section (lines 933-984). -/
def renderNewSourceGroup (sd : SourceNewTitles) : Except String String := do
  let sn ← getKey sd.source_name "source_name"
  let escaped_source := html_escape sn
  let items ← renderNewTitleItems 1 sd.titles
  pure (lit937_a ++ escaped_source ++ lit937_b ++ toString sd.titles.length
    ++ lit937_c ++ items ++ lit983)

/-- The source-group loop (line 933). -/
def renderNewSourceGroups : List SourceNewTitles → Except String String
  | [] => pure ""
  | sd :: rest => do
    let s ← renderNewSourceGroup sd
    let r ← renderNewSourceGroups rest
    pure (s ++ r)

/-- The accumulated `new_titles_html` (lines 926-987). -/
def buildNewTitlesHtml (show_new_section : Bool) (rd : ReportData) :
    Except String String :=
  if show_new_section ∧ rd.new_titles ≠ [] then do
    let groups ← renderNewSourceGroups rd.new_titles
    pure (lit929_a ++ toString rd.total_new_count ++ lit929_b ++ groups ++ lit986)
  else pure ""

/-- One RSS item row (lines 1046-1079). -/
def renderRssItem (td : TitleData) : String :=
  let item_title := td.title.getD ""
  let url := td.url.getD ""
  let time_display := td.time_display.getD ""
  let source_name := td.source_name.getD ""
  let is_new := td.is_new.getD false
  lit1053
    ++ (if time_display ≠ "" then lit1058_a ++ html_escape time_display ++ lit1058_b else "")
    ++ (if source_name ≠ "" then lit1061_a ++ html_escape source_name ++ lit1061_b else "")
    ++ (if is_new then lit1064 else "")
    ++ lit1066
    ++ rssLinkFragment url (html_escape item_title)
    ++ lit1077

/-- One RSS keyword group (lines 1031-1082); empty `titles` is skipped by
`continue`. -/
def renderRssGroup (stat : RssStat) : String :=
  let keyword := stat.word.getD ""
  let titles := stat.titles.getD []
  if titles = [] then ""
  else
    lit1039_a ++ html_escape keyword ++ lit1039_b ++ toString titles.length
      ++ lit1039_c ++ concatAll (titles.map renderRssItem) ++ lit1081

/-- The nested `render_rss_stats_html` (lines 990-1086). -/
def render_rss_stats_html (stats : List RssStat) (title : String) : String :=
  if stats = [] then ""
  else
    let total_count : Int := (stats.map (fun st => st.count.getD 0)).foldl (· + ·) 0
    if total_count = 0 then ""
    else
      lit1023_a ++ title ++ lit1023_b ++ toString total_count ++ lit1023_c
        ++ concatAll (stats.map renderRssGroup) ++ lit1084

/-- One standalone platform item row (lines 1170-1241). -/
def renderStandaloneItem (j : Nat) (it : StandaloneItem) : String :=
  let title := it.title.getD ""
  let url := standaloneLinkUrl it
  let rank := it.rank.getD 0
  let ranks := it.ranks.getD []
  let first_time := it.first_time.getD ""
  let last_time := it.last_time.getD ""
  let count := it.count.getD 1
  let rankFrag :=
    if ranks ≠ [] then
      lit1203_a ++ standaloneRankClass (listMin ranks) ++ lit1203_b
        ++ standaloneRankText (listMin ranks) (listMax ranks) ++ lit1203_c
    else if rank > 0 then
      lit1211_a ++ standaloneRankClass rank ++ lit1211_b ++ toString rank ++ lit1211_c
    else ""
  lit1179_a ++ toString j ++ lit1179_b
    ++ rankFrag
    ++ standaloneTimeHtml first_time last_time
    ++ (if count > 1 then lit1224_a ++ toString count ++ lit1224_b else "")
    ++ lit1226
    ++ newsLinkFragment url (html_escape title)
    ++ lit1238

/-- The numbered-loop helper for `enumerate(items, 1)`. -/
def mapIdxFrom {α : Type} (f : Nat → α → String) : Nat → List α → List String
  | _, [] => []
  | j, x :: rest => f j x :: mapIdxFrom f (j + 1) rest

/-- One standalone platform group (lines 1156-1244); a platform with no
items is skipped by `continue`. -/
def renderStandalonePlatform (p : StandalonePlatform) : String :=
  let platform_name :=
    match p.name with
    | some n => n
    | none => p.id.getD ""
  let items := p.items.getD []
  if items = [] then ""
  else
    lit1162_a ++ html_escape platform_name ++ lit1162_b ++ toString items.length
      ++ lit1162_c ++ concatAll (mapIdxFrom renderStandaloneItem 1 items) ++ lit1243

/-- One standalone feed item row (lines 1260-1304). -/
def renderFeedItem (j : Nat) (it : FeedItem) : String :=
  let title := it.title.getD ""
  let url := it.url.getD ""
  let published_at := it.published_at.getD ""
  let author := it.author.getD ""
  lit1266_a ++ toString j ++ lit1266_b
    ++ (if published_at ≠ "" then
          lit1284_a ++ html_escape (renderPublishedTimeDisplay published_at) ++ lit1284_b
        else "")
    ++ (if author ≠ "" then lit1288_a ++ html_escape author ++ lit1288_b else "")
    ++ lit1290
    ++ newsLinkFragment url (html_escape title)
    ++ lit1301

/-- One standalone RSS feed group (lines 1247-1307). -/
def renderStandaloneFeed (f : StandaloneFeed) : String :=
  let feed_name :=
    match f.name with
    | some n => n
    | none => f.id.getD ""
  let items := f.items.getD []
  if items = [] then ""
  else
    lit1253_a ++ html_escape feed_name ++ lit1253_b ++ toString items.length
      ++ lit1253_c ++ concatAll (mapIdxFrom renderFeedItem 1 items) ++ lit1306

/-- The nested `render_standalone_html` (lines 1089-1311). -/
def render_standalone_html (data : Option StandaloneData) : String :=
  match data with
  | none => ""
  | some d =>
    let platforms := d.platforms.getD []
    let rss_feeds := d.rss_feeds.getD []
    if platforms = [] ∧ rss_feeds = [] then ""
    else
      let total_platform_items : Nat :=
        (platforms.map (fun p => (p.items.getD []).length)).foldl (· + ·) 0
      let total_rss_items : Nat :=
        (rss_feeds.map (fun f => (f.items.getD []).length)).foldl (· + ·) 0
      let total_count := total_platform_items + total_rss_items
      if total_count = 0 then ""
      else
        lit1148_a ++ toString total_count ++ lit1148_b
          ++ concatAll (platforms.map renderStandalonePlatform)
          ++ concatAll (rss_feeds.map renderStandaloneFeed)
          ++ lit1309

/-! The content assembler. -/

/-- The pattern `class="` searched by `add_section_divider`. -/
def classPat : List Char := "class=\"".data

/-- The text inserted by `add_section_divider`. -/
def sdInsert : List Char := "section-divider ".data

/-- The nested `add_section_divider` (html.py lines 1332-1340): mark the outermost
`div` of a content string by inserting `section-divider ` right after the
first `class="`; return the content unchanged when it is empty or has no
`class="`. -/
def add_section_divider (content : String) : String :=
  if content = "" then content
  else
    match findSub classPat content.data with
    | none => content
    | some i =>
      ⟨content.data.take (i + classPat.length) ++ sdInsert
        ++ content.data.drop (i + classPat.length)⟩

/-- The rendered content of the five regions, as held by the
`region_contents` dict (html.py lines 1324-1330); `new_items` maps to the
pair of its hotlist-delta and RSS-delta sub-parts. -/
structure RegionContents where
  hotlist : String
  rss : String
  newItemsHot : String
  newItemsRss : String
  standalone : String
  aiAnalysis : String

/-- Python `region_contents.get(region, "")` for the non-tuple regions. -/
def regionContentLookup (rc : RegionContents) (region : String) : String :=
  if region = "hotlist" then rc.hotlist
  else if region = "rss" then rc.rss
  else if region = "standalone" then rc.standalone
  else if region = "ai_analysis" then rc.aiAnalysis
  else ""

/-- One iteration of the assembly loop over `region_order`
(html.py lines 1343-1363). The state is the accumulated html string and
the `has_previous_content` flag. -/
def assembleStep (rc : RegionContents) (st : String × Bool) (region : String) :
    String × Bool :=
  if region = "new_items" then
    let st1 := if rc.newItemsHot ≠ "" then
        (st.1 ++ (if st.2 then add_section_divider rc.newItemsHot else rc.newItemsHot), true)
      else st
    if rc.newItemsRss ≠ "" then
      (st1.1 ++ (if st1.2 then add_section_divider rc.newItemsRss else rc.newItemsRss), true)
    else st1
  else
    let content := regionContentLookup rc region
    if content ≠ "" then
      (st.1 ++ (if st.2 then add_section_divider content else content), true)
    else st

/-- The non-empty content parts one region kind contributes, in emission
order (`new_items` contributes up to two). -/
def regionParts (rc : RegionContents) (region : String) : List String :=
  if region = "new_items" then
    (if rc.newItemsHot ≠ "" then [rc.newItemsHot] else [])
      ++ (if rc.newItemsRss ≠ "" then [rc.newItemsRss] else [])
  else
    let c := regionContentLookup rc region
    if c ≠ "" then [c] else []

/-- All non-empty content parts the assembly loop appends, in order. -/
def emittedParts (order : List String) (rc : RegionContents) : List String :=
  match order with
  | [] => []
  | r :: rest => regionParts rc r ++ emittedParts rest rc

/-- Mark every part but the first with the section divider (what the loop
does to the parts it emits). -/
def markTail : List String → List String
  | [] => []
  | p :: ps => p :: ps.map add_section_divider

/-- The full divider marker that insertion produces: the first `class="`
of the part followed by the inserted `section-divider `. -/
def dividerMarker : List Char := "class=\"section-divider ".data

/-- The bare token `section-divider`. -/
def sdToken : List Char := "section-divider".data

/-- Whether a string carries a divider marker. -/
def hasDividerMark (s : String) : Bool := containsSub dividerMarker s.data

/-- A well-formed region content: either empty, or an html fragment whose
outermost element has a `class="` attribute and which does not already
contain the token `section-divider` (true of every fragment the builders
produce: their text content is html-escaped, so it cannot contain
`class="`). -/
def GoodStr (c : String) : Prop :=
  c = "" ∨ (containsSub classPat c.data = true ∧ containsSub sdToken c.data = false)

/-- All six region contents are well-formed. -/
def GoodRC (rc : RegionContents) : Prop :=
  GoodStr rc.hotlist ∧ GoodStr rc.rss ∧ GoodStr rc.newItemsHot ∧
  GoodStr rc.newItemsRss ∧ GoodStr rc.standalone ∧ GoodStr rc.aiAnalysis


/-! The full composition. -/

/-- The error block for failed platform ids (lines 797-807). -/
def errorSectionHtml (failed_ids : List String) : String :=
  if failed_ids ≠ [] then
    lit799
      ++ concatAll (failed_ids.map (fun v => lit804_a ++ html_escape v ++ lit804_b))
      ++ lit805
  else ""

/-- The report-type label (lines 750-756). -/
def modeDisplayText (mode : String) : String :=
  if mode = "current" then "當前榜單"
  else if mode = "incremental" then "增量分析"
  else "全天匯總"

/-- The optional new-version footer fragment (lines 1375-1380). -/
def updateInfoFragment : Option UpdateInfo → String
  | none => ""
  | some u => lit1376_a ++ u.remote_version ++ lit1376_b ++ u.current_version ++ lit1376_c

/-- The current time used for the header (lines 783-788): `get_time_func()`
when a time function was supplied, else the ambient wall clock
(`datetime.now()`), which is an implicit input of the call. -/
def resolveNow (get_time_func : Option (Unit → PyDateTime)) (sysNow : PyDateTime) :
    PyDateTime :=
  match get_time_func with
  | some f => f ()
  | none => sysNow

/-- The default region order (line 51). -/
def defaultRegionOrder : List String :=
  ["hotlist", "rss", "new_items", "standalone", "ai_analysis"]

/-- The `region_contents` dict (lines 1313-1330), built from the hotlist
and new-items builders' outputs and the pure region renderers. -/
def regionContentsOf (stats_html new_titles_html : String)
    (rss_items rss_new_items : Option (List RssStat))
    (standalone_data : Option StandaloneData) (ai_analysis : Option AIAnalysis) :
    RegionContents :=
  { hotlist := stats_html
    rss := match rss_items with
      | some l => if l ≠ [] then render_rss_stats_html l "RSS 訂閱更新" else ""
      | none => ""
    newItemsHot := new_titles_html
    newItemsRss := match rss_new_items with
      | some l => if l ≠ [] then render_rss_stats_html l "RSS 新增更新" else ""
      | none => ""
    standalone := render_standalone_html standalone_data
    aiAnalysis := match ai_analysis with
      | some a => render_ai_analysis_html_rich a
      | none => "" }

/-- Everything `html` accumulates before the region loop: document head,
header info values (lines 55-795) and the error block (lines 797-807). -/
def htmlPreOf (report_data : ReportData) (total_titles : Int) (mode : String)
    (now : PyDateTime) : String :=
  lit55 ++ modeDisplayText mode
    ++ lit758 ++ (toString total_titles ++ " 條")
    ++ lit769 ++ (toString ((report_data.stats.map (fun st => st.titles.length)).foldl (· + ·) 0) ++ " 條")
    ++ lit777 ++ strftime_md_hm now
    ++ lit790
    ++ errorSectionHtml report_data.failed_ids

/-- The top-level `render_html_content` (html.py lines 16-1698). The builders that can
raise `KeyError` run first (in Python's evaluation order); on success the
document is the pre-region html, the regions assembled in `region_order`
with dynamic dividers, and the footer (plus the fixed script chrome). -/
def render_html_content
    (report_data : ReportData) (total_titles : Int) (mode : String)
    (update_info : Option UpdateInfo)
    (region_order : Option (List String))
    (get_time_func : Option (Unit → PyDateTime)) (sysNow : PyDateTime)
    (rss_items : Option (List RssStat)) (rss_new_items : Option (List RssStat))
    (display_mode : String) (standalone_data : Option StandaloneData)
    (ai_analysis : Option AIAnalysis) (show_new_section : Bool) :
    Except String String := do
  let now := resolveNow get_time_func sysNow
  let stats_html ← buildHotlistSection display_mode report_data.stats
  let new_titles_html ← buildNewTitlesHtml show_new_section report_data
  let rc := regionContentsOf stats_html new_titles_html rss_items rss_new_items
    standalone_data ai_analysis
  let htmlPre := htmlPreOf report_data total_titles mode now
  let assembled :=
    (List.foldl (assembleStep rc) (htmlPre, false) (region_order.getD defaultRegionOrder)).1
  pure (assembled ++ lit1365 ++ updateInfoFragment update_info ++ lit1382)

/-! The segmentation engine (`saveAsMultipleImages`, html.py lines 1459-1591). -/

structure SegElement where
  top : Int
  bottom : Int
  height : Int
deriving DecidableEq, Repr

structure JsSegment where
  start : Int
  segEnd : Int
  height : Int
  includeHeader : Bool
deriving DecidableEq, Repr

def segStep (maxHeight headerHeight : Int) :
    SegElement → List SegElement → JsSegment → List JsSegment →
    List JsSegment × JsSegment
  | _, [], cur, acc => (acc, cur)
  | prev, el :: rest, cur, acc =>
    let potentialHeight := el.bottom - cur.start
    if potentialHeight > maxHeight ∧ cur.height > headerHeight then
      segStep maxHeight headerHeight el rest
        { start := prev.bottom, segEnd := 0,
          height := el.bottom - prev.bottom, includeHeader := false }
        (acc ++ [{ cur with segEnd := prev.bottom }])
    else
      segStep maxHeight headerHeight el rest
        { cur with height := potentialHeight, segEnd := el.bottom } acc

def saveAsMultipleImages (maxHeight : Int) (elements : List SegElement)
    (containerHeight : Int) : List JsSegment :=
  match elements with
  | [] => []
  | header :: rest =>
    let headerHeight := header.height
    let r := segStep maxHeight headerHeight header rest
      { start := 0, segEnd := 0, height := headerHeight, includeHeader := true } []
    if r.2.height > 0 then
      r.1 ++ [{ r.2 with segEnd := containerHeight }]
    else
      r.1

def blocksFrom (off : Int) : List Int → List SegElement
  | [] => []
  | h :: t => { top := off, bottom := off + h, height := h } :: blocksFrom (off + h) t

def lastBottom (d : Int) : List SegElement → Int
  | [] => d
  | e :: t => lastBottom e.bottom t

def linked : Int → List JsSegment → Int → Prop
  | a, [], b => a = b
  | a, s :: t, b => s.start = a ∧ s.start ≤ s.segEnd ∧ linked s.segEnd t b

def segOrdered (a b : SegElement) : Prop := a.bottom ≤ b.top ∧ b.top ≤ b.bottom

def segPost (P : Int → Prop) (lastB : Int) (r : List JsSegment × JsSegment) : Prop :=
  r.2.height = lastB - r.2.start ∧ r.2.start ≤ lastB ∧ P r.2.start ∧
  linked 0 r.1 r.2.start ∧ (∀ s ∈ r.1, P s.start ∧ P s.segEnd)

instance : DecidableRel segOrdered := fun a b =>
  decidable_of_iff (a.bottom ≤ b.top ∧ b.top ≤ b.bottom) Iff.rfl

/-! Supporting lemmas. -/

theorem findSub_some_decomp {pat : List Char} :
    ∀ {s : List Char} {i : Nat}, findSub pat s = some i →
      ∃ A B, s = A ++ pat ++ B ∧ A.length = i := by
  intro s
  induction s with
  | nil =>
    intro i h
    simp only [findSub] at h
    split at h
    · rename_i hp
      have := List.isPrefixOf_iff_prefix.mp hp
      rcases this with ⟨B, hB⟩
      cases h
      exact ⟨[], B, by simp [← hB], rfl⟩
    · cases h
  | cons c t ih =>
    intro i h
    simp only [findSub] at h
    split at h
    · rename_i hp
      rcases List.isPrefixOf_iff_prefix.mp hp with ⟨B, hB⟩
      cases h
      exact ⟨[], B, by simp [← hB], rfl⟩
    · rcases Option.map_eq_some'.mp h with ⟨j, hj, rfl⟩
      rcases ih hj with ⟨A, B, hAB, hA⟩
      exact ⟨c :: A, B, by simp [hAB], by simp [hA]⟩

theorem containsSub_append_self (pat : List Char) :
    ∀ (A B : List Char), containsSub pat (A ++ pat ++ B) = true := by
  intro A
  induction A with
  | nil =>
    intro B
    simp only [containsSub, List.nil_append]
    cases pat with
    | nil => cases B <;> simp [findSub, List.isPrefixOf]
    | cons p pt =>
      have hp : (p :: pt).isPrefixOf ((p :: pt) ++ B) = true :=
        List.isPrefixOf_iff_prefix.mpr (List.prefix_append _ _)
      simp [findSub, hp]
  | cons c A' ih =>
    intro B
    simp only [containsSub, List.cons_append, findSub]
    split
    · simp
    · have := ih B
      simp only [containsSub] at this
      simp [Option.isSome_map, ← List.append_assoc, this]

theorem containsSub_of_decomp {pat s : List Char}
    (h : ∃ A B, s = A ++ pat ++ B) : containsSub pat s = true := by
  rcases h with ⟨A, B, rfl⟩
  exact containsSub_append_self pat A B

theorem containsSub_decomp {pat s : List Char}
    (h : containsSub pat s = true) : ∃ A B, s = A ++ pat ++ B ∧ A.length + pat.length ≤ s.length := by
  simp only [containsSub, Option.isSome_iff_exists] at h
  rcases h with ⟨i, hi⟩
  rcases findSub_some_decomp hi with ⟨A, B, rfl, hA⟩
  exact ⟨A, B, rfl, by simp⟩

theorem concatAll_append (a b : List String) :
    concatAll (a ++ b) = concatAll a ++ concatAll b := by
  induction a with
  | nil => simp [concatAll, String.empty_append]
  | cons x xs ih => simp [concatAll, ih, String.append_assoc]

theorem marker_split : dividerMarker = classPat ++ sdInsert := by decide

theorem marker_split' : dividerMarker = classPat ++ sdToken ++ (" ".data) := by decide

theorem add_marker_contains {p : String} (hg : GoodStr p) (hne : p ≠ "") :
    hasDividerMark (add_section_divider p) = true := by
  rcases hg with rfl | ⟨hcl, hsd⟩
  · exact absurd rfl hne
  · simp only [containsSub, Option.isSome_iff_exists] at hcl
    rcases hcl with ⟨i, hi⟩
    rcases findSub_some_decomp hi with ⟨A, B, hAB, hA⟩
    unfold add_section_divider
    rw [if_neg hne, hi]
    unfold hasDividerMark
    apply containsSub_of_decomp
    refine ⟨A, B, ?_⟩
    show (p.data.take (i + classPat.length) ++ sdInsert
        ++ p.data.drop (i + classPat.length)) = A ++ dividerMarker ++ B
    have htake : p.data.take (i + classPat.length) = A ++ classPat := by
      rw [hAB, List.append_assoc, List.take_append_eq_append_take]
      rw [List.take_of_length_le (by omega)]
      rw [List.take_append_eq_append_take]
      rw [List.take_of_length_le (by omega)]
      simp [hA]
    have hdrop : p.data.drop (i + classPat.length) = B := by
      rw [hAB, List.append_assoc, List.drop_append_eq_append_drop]
      rw [List.drop_of_length_le (by omega)]
      rw [List.drop_append_eq_append_drop]
      rw [List.drop_of_length_le (by omega)]
      simp [hA]
    rw [htake, hdrop, marker_split]
    simp [List.append_assoc]

theorem good_no_marker {p : String} (hg : GoodStr p) : hasDividerMark p = false := by
  rcases hg with rfl | ⟨_, hsd⟩
  · decide
  · unfold hasDividerMark
    by_contra hc
    rw [Bool.not_eq_false] at hc
    rcases containsSub_decomp hc with ⟨A, B, hAB, _⟩
    rw [marker_split'] at hAB
    have : containsSub sdToken p.data = true := by
      apply containsSub_of_decomp
      exact ⟨A ++ classPat, " ".data ++ B, by rw [hAB]; simp [List.append_assoc]⟩
    rw [this] at hsd
    cases hsd

theorem step_true (rc : RegionContents) (acc : String) (r : String) :
    assembleStep rc (acc, true) r
      = (acc ++ concatAll ((regionParts rc r).map add_section_divider), true) := by
  unfold assembleStep regionParts
  by_cases hni : r = "new_items"
  · rw [if_pos hni, if_pos hni]
    by_cases h1 : rc.newItemsHot ≠ "" <;> by_cases h2 : rc.newItemsRss ≠ "" <;>
      simp [h1, h2, concatAll, String.append_assoc, String.append_empty]
  · rw [if_neg hni, if_neg hni]
    by_cases h1 : regionContentLookup rc r ≠ "" <;>
      simp [h1, concatAll, String.append_assoc, String.append_empty]

theorem step_false (rc : RegionContents) (acc : String) (r : String) :
    assembleStep rc (acc, false) r
      = (acc ++ concatAll (markTail (regionParts rc r)), !(regionParts rc r).isEmpty) := by
  unfold assembleStep regionParts
  by_cases hni : r = "new_items"
  · rw [if_pos hni, if_pos hni]
    by_cases h1 : rc.newItemsHot ≠ "" <;> by_cases h2 : rc.newItemsRss ≠ "" <;>
      simp [h1, h2, concatAll, markTail, String.append_assoc, String.append_empty]
  · rw [if_neg hni, if_neg hni]
    by_cases h1 : regionContentLookup rc r ≠ "" <;>
      simp [h1, concatAll, markTail, String.append_assoc, String.append_empty]

theorem fold_true (rc : RegionContents) :
    ∀ (order : List String) (acc : String),
      List.foldl (assembleStep rc) (acc, true) order
        = (acc ++ concatAll ((emittedParts order rc).map add_section_divider), true) := by
  intro order
  induction order with
  | nil => intro acc; simp [emittedParts, concatAll, String.append_empty]
  | cons r rest ih =>
    intro acc
    rw [List.foldl_cons, step_true, ih]
    simp [emittedParts, concatAll_append, String.append_assoc]

theorem fold_false (rc : RegionContents) :
    ∀ (order : List String) (acc : String),
      List.foldl (assembleStep rc) (acc, false) order
        = (acc ++ concatAll (markTail (emittedParts order rc)),
           !(emittedParts order rc).isEmpty) := by
  intro order
  induction order with
  | nil => intro acc; simp [emittedParts, markTail, concatAll, String.append_empty]
  | cons r rest ih =>
    intro acc
    rw [List.foldl_cons, step_false]
    rcases hrp : regionParts rc r with _ | ⟨p, ps⟩
    · simp only [hrp, List.isEmpty_nil, Bool.not_true, markTail, concatAll,
        String.append_empty, ih]
      simp [emittedParts, hrp]
    · simp only [List.isEmpty_cons, Bool.not_false]
      rw [fold_true]
      have hparts : emittedParts (r :: rest) rc = (p :: ps) ++ emittedParts rest rc := by
        simp [emittedParts, hrp]
      rw [hparts]
      have hmt : markTail ((p :: ps) ++ emittedParts rest rc)
          = (p :: ps.map add_section_divider) ++ (emittedParts rest rc).map add_section_divider := by
        simp [markTail]
      rw [hmt]
      simp only [Prod.mk.injEq]
      refine ⟨?_, by simp⟩
      rw [concatAll_append]
      simp [markTail, concatAll, concatAll_append, String.append_assoc]

theorem emittedParts_mem (rc : RegionContents) :
    ∀ (order : List String), ∀ p ∈ emittedParts order rc,
      (p = rc.hotlist ∨ p = rc.rss ∨ p = rc.newItemsHot ∨ p = rc.newItemsRss ∨
        p = rc.standalone ∨ p = rc.aiAnalysis) ∧ p ≠ "" := by
  intro order
  induction order with
  | nil => intro p hp; cases hp
  | cons r rest ih =>
    intro p hp
    simp only [emittedParts, List.mem_append] at hp
    rcases hp with hp | hp
    · by_cases hni : r = "new_items"
      · rw [regionParts, if_pos hni] at hp
        rcases List.mem_append.mp hp with h | h
        · split_ifs at h with hne
          · rcases List.mem_singleton.mp h with rfl
            exact ⟨Or.inr (Or.inr (Or.inl rfl)), hne⟩
          · cases h
        · split_ifs at h with hne
          · rcases List.mem_singleton.mp h with rfl
            exact ⟨Or.inr (Or.inr (Or.inr (Or.inl rfl))), hne⟩
          · cases h
      · rw [regionParts, if_neg hni] at hp
        simp only at hp
        split_ifs at hp with hne
        · rcases List.mem_singleton.mp hp with rfl
          refine ⟨?_, hne⟩
          unfold regionContentLookup at hne ⊢
          split_ifs <;> simp_all
        · cases hp
    · exact ih p hp

theorem markTail_facts {parts : List String}
    (hall : ∀ p ∈ parts, GoodStr p ∧ p ≠ "") :
    (markTail parts).countP hasDividerMark = parts.length - 1 ∧
    (∀ p, (markTail parts).head? = some p → hasDividerMark p = false) := by
  cases parts with
  | nil => exact ⟨rfl, by intro p h; cases h⟩
  | cons p ps =>
    have hp := hall p (List.mem_cons_self _ _)
    constructor
    · show List.countP hasDividerMark (p :: ps.map add_section_divider) = _
      rw [List.countP_cons, good_no_marker hp.1]
      simp only [if_neg (by simp : ¬(false = true))]
      rw [List.countP_map]
      have : List.countP (hasDividerMark ∘ add_section_divider) ps = ps.length :=
        List.countP_eq_length.mpr (fun a ha => by
          have := hall a (List.mem_cons_of_mem _ ha)
          exact add_marker_contains this.1 this.2)
      simp [this]
    · intro q hq
      simp only [markTail, List.head?_cons, Option.some.injEq] at hq
      subst hq
      exact good_no_marker hp.1


theorem linked_append_one {a b c : Int} {acc : List JsSegment} {s : JsSegment}
    (hl : linked a acc b) (h1 : s.start = b) (h2 : s.segEnd = c) (h3 : b ≤ c) :
    linked a (acc ++ [s]) c := by
  induction acc generalizing a with
  | nil =>
    simp only [linked] at hl
    subst hl
    exact ⟨h1, by omega, by simp [linked, h2]⟩
  | cons t ts ih =>
    obtain ⟨hta, hts, hrest⟩ := hl
    exact ⟨hta, hts, ih hrest⟩

theorem segStep_spec (maxHeight headerHeight : Int) (P : Int → Prop)
    (rest : List SegElement) :
    ∀ (prev : SegElement) (cur : JsSegment) (acc : List JsSegment),
    List.Chain segOrdered prev rest →
    (∀ e ∈ rest, P e.bottom) →
    P prev.bottom →
    cur.height = prev.bottom - cur.start →
    cur.start ≤ prev.bottom →
    P cur.start →
    linked 0 acc cur.start →
    (∀ s ∈ acc, P s.start ∧ P s.segEnd) →
    segPost P (lastBottom prev.bottom rest)
      (segStep maxHeight headerHeight prev rest cur acc) := by
  induction rest with
  | nil =>
    intro prev cur acc _ _ _ hch hcs hPc hlink hmem
    exact ⟨hch, hcs, hPc, hlink, hmem⟩
  | cons el rest' ih =>
    intro prev cur acc hchain hPrest hPprev hch hcs hPc hlink hmem
    obtain ⟨⟨hpe, hee⟩, hchain'⟩ := List.chain_cons.mp hchain
    rw [segStep]
    simp only [lastBottom]
    by_cases hcond : el.bottom - cur.start > maxHeight ∧ cur.height > headerHeight
    · rw [if_pos hcond]
      apply ih el _ _ hchain' (fun e he => hPrest e (List.mem_cons_of_mem _ he))
        (hPrest el (List.mem_cons_self _ _))
      · rfl
      · show prev.bottom ≤ el.bottom
        omega
      · exact hPprev
      · exact linked_append_one hlink rfl rfl hcs
      · intro s hs
        rcases List.mem_append.mp hs with h | h
        · exact hmem s h
        · rcases List.mem_singleton.mp h with rfl
          exact ⟨hPc, hPprev⟩
    · rw [if_neg hcond]
      apply ih el _ _ hchain' (fun e he => hPrest e (List.mem_cons_of_mem _ he))
        (hPrest el (List.mem_cons_self _ _))
      · rfl
      · show cur.start ≤ el.bottom
        omega
      · exact hPc
      · exact hlink
      · exact hmem

theorem lastBottom_ge {rest : List SegElement} :
    ∀ {prev : SegElement}, List.Chain segOrdered prev rest →
      prev.bottom ≤ lastBottom prev.bottom rest := by
  induction rest with
  | nil => intro prev _; exact le_refl _
  | cons el rest' ih =>
    intro prev hchain
    obtain ⟨⟨hpe, hee⟩, hchain'⟩ := List.chain_cons.mp hchain
    calc prev.bottom ≤ el.bottom := by omega
    _ ≤ lastBottom el.bottom rest' := ih hchain'

theorem lastBottom_mem {rest : List SegElement} :
    ∀ {d : Int}, lastBottom d rest = d ∨ ∃ e ∈ rest, lastBottom d rest = e.bottom := by
  induction rest with
  | nil => intro d; exact Or.inl rfl
  | cons el rest' ih =>
    intro d
    rcases @ih el.bottom with h | ⟨e, he, h⟩
    · exact Or.inr ⟨el, List.mem_cons_self _ _, h⟩
    · exact Or.inr ⟨e, List.mem_cons_of_mem _ he, h⟩

theorem linked_nonempty {a b : Int} {segs : List JsSegment}
    (h : linked a segs b) (hne : a ≠ b) : segs ≠ [] := by
  intro he
  subst he
  exact hne h

theorem pairwise_mem_cases {α : Type} {R : α → α → Prop} {l : List α}
    (hp : List.Pairwise R l) {x y : α} (hx : x ∈ l) (hy : y ∈ l) :
    R x y ∨ x = y ∨ R y x := by
  induction l with
  | nil => cases hx
  | cons t ts ih =>
    rcases List.pairwise_cons.mp hp with ⟨hth, hts⟩
    rcases List.mem_cons.mp hx with rfl | hx' <;> rcases List.mem_cons.mp hy with rfl | hy'
    · exact Or.inr (Or.inl rfl)
    · exact Or.inl (hth _ hy')
    · exact Or.inr (Or.inr (hth _ hx'))
    · exact ih hts hx' hy'

theorem segOrdered_trans : Transitive segOrdered := by
  intro a b c hab hbc
  exact ⟨by unfold segOrdered at *; omega, hbc.2⟩

theorem chain_pairwise {rest : List SegElement} :
    ∀ {prev : SegElement}, List.Chain segOrdered prev rest →
      List.Pairwise segOrdered (prev :: rest) := by
  induction rest with
  | nil => intro prev _; exact List.pairwise_singleton _ _
  | cons el rest' ih =>
    intro prev hchain
    obtain ⟨hpe, hchain'⟩ := List.chain_cons.mp hchain
    have hp' := ih hchain'
    refine List.pairwise_cons.mpr ⟨?_, hp'⟩
    intro y hy
    rcases List.mem_cons.mp hy with rfl | hy'
    · exact hpe
    · exact segOrdered_trans hpe ((List.pairwise_cons.mp hp').1 y hy')

theorem segmentation_props
    (maxHeight : Int) (hd : SegElement) (rest : List SegElement) (containerHeight : Int)
    (hmax : 0 < maxHeight)
    (htop : hd.top = 0) (hpos : 0 < hd.bottom) (hh : hd.height = hd.bottom)
    (hchain : List.Chain segOrdered hd rest)
    (hcont : containerHeight = lastBottom hd.bottom rest) :
    saveAsMultipleImages maxHeight (hd :: rest) containerHeight ≠ [] ∧
    linked 0 (saveAsMultipleImages maxHeight (hd :: rest) containerHeight) containerHeight ∧
    (∀ s ∈ saveAsMultipleImages maxHeight (hd :: rest) containerHeight,
      (s.start = 0 ∨ ∃ e ∈ hd :: rest, s.start = e.bottom) ∧
      (s.segEnd = 0 ∨ ∃ e ∈ hd :: rest, s.segEnd = e.bottom)) ∧
    (∀ b ∈ hd :: rest, b.bottom - b.top ≤ maxHeight →
      ∀ s ∈ saveAsMultipleImages maxHeight (hd :: rest) containerHeight,
        ¬ (b.top < s.start ∧ s.start < b.bottom) ∧
        ¬ (b.top < s.segEnd ∧ s.segEnd < b.bottom)) := by
  set P : Int → Prop := fun x => x = 0 ∨ ∃ e ∈ hd :: rest, x = e.bottom with hP
  have hspec := segStep_spec maxHeight hd.height P rest hd
    { start := 0, segEnd := 0, height := hd.height, includeHeader := true } []
    hchain
    (fun e he => Or.inr ⟨e, List.mem_cons_of_mem _ he, rfl⟩)
    (Or.inr ⟨hd, List.mem_cons_self _ _, rfl⟩)
    (by simp [hh])
    (by simp; omega)
    (Or.inl rfl)
    rfl
    (by intro s hs; cases hs)
  set r := segStep maxHeight hd.height hd rest
    { start := 0, segEnd := 0, height := hd.height, includeHeader := true } [] with hr
  obtain ⟨hht, hle, hPst, hlink, hmem⟩ := hspec
  have hlastP : P containerHeight := by
    rw [hcont]
    rcases @lastBottom_mem rest hd.bottom with h | ⟨e, he, h⟩
    · exact Or.inr ⟨hd, List.mem_cons_self _ _, h⟩
    · exact Or.inr ⟨e, List.mem_cons_of_mem _ he, h⟩
  have hlastGe : hd.bottom ≤ containerHeight := hcont ▸ lastBottom_ge hchain
  have hsave : saveAsMultipleImages maxHeight (hd :: rest) containerHeight
      = if r.2.height > 0 then r.1 ++ [{ r.2 with segEnd := containerHeight }] else r.1 := by
    rfl
  have key : linked 0 (saveAsMultipleImages maxHeight (hd :: rest) containerHeight) containerHeight ∧
      (∀ s ∈ saveAsMultipleImages maxHeight (hd :: rest) containerHeight, P s.start ∧ P s.segEnd) := by
    rw [hsave]
    by_cases hpos2 : r.2.height > 0
    · rw [if_pos hpos2]
      constructor
      · exact linked_append_one hlink rfl rfl (by omega)
      · intro s hs
        rcases List.mem_append.mp hs with h | h
        · exact hmem s h
        · rcases List.mem_singleton.mp h with rfl
          exact ⟨hPst, hlastP⟩
    · rw [if_neg hpos2]
      have heq : r.2.start = containerHeight := by omega
      rw [← heq]
      exact ⟨hlink, hmem⟩
  have hpair := chain_pairwise hchain
  have htops : ∀ e ∈ hd :: rest, 0 ≤ e.top ∧ e.top ≤ e.bottom := by
    intro e he
    rcases List.mem_cons.mp he with rfl | he'
    · constructor <;> omega
    · have := (List.pairwise_cons.mp hpair).1 e he'
      unfold segOrdered at this
      constructor <;> omega
  have hnotin : ∀ b ∈ hd :: rest, ∀ x : Int,
      (x = 0 ∨ ∃ e ∈ hd :: rest, x = e.bottom) → ¬ (b.top < x ∧ x < b.bottom) := by
    intro b hb x hx ⟨h1, h2⟩
    rcases hx with rfl | ⟨e, he, rfl⟩
    · have := (htops b hb).1
      omega
    · rcases pairwise_mem_cases hpair hb he with hR | rfl | hR
      · have h3 : b.bottom ≤ e.bottom := by
          unfold segOrdered at hR
          omega
        omega
      · omega
      · have := hR.1
        omega
  refine ⟨?_, key.1, fun s hs => key.2 s hs, ?_⟩
  · apply linked_nonempty key.1
    omega
  · intro b hb _ s hs
    exact ⟨hnotin b hb s.start (key.2 s hs).1, hnotin b hb s.segEnd (key.2 s hs).2⟩

theorem linked_covers {segs : List JsSegment} :
    ∀ {a b x : Int}, linked a segs b → a ≤ x → x < b →
      ∃ s ∈ segs, s.start ≤ x ∧ x < s.segEnd := by
  induction segs with
  | nil =>
    intro a b x h hax hxb
    simp only [linked] at h
    omega
  | cons s t ih =>
    intro a b x h hax hxb
    obtain ⟨hsa, hse, hrest⟩ := h
    by_cases hx : x < s.segEnd
    · exact ⟨s, List.mem_cons_self _ _, by omega, hx⟩
    · obtain ⟨s', hs', h1, h2⟩ := ih hrest (by omega) hxb
      exact ⟨s', List.mem_cons_of_mem _ hs', h1, h2⟩

theorem mem_bottom_le_lastBottom {rest : List SegElement} :
    ∀ {prev : SegElement}, List.Chain segOrdered prev rest →
      ∀ e ∈ prev :: rest, e.bottom ≤ lastBottom prev.bottom rest := by
  induction rest with
  | nil =>
    intro prev _ e he
    rcases List.mem_cons.mp he with rfl | h
    · exact le_refl _
    · cases h
  | cons el rest' ih =>
    intro prev hchain e he
    obtain ⟨hpe, hchain'⟩ := List.chain_cons.mp hchain
    rcases List.mem_cons.mp he with rfl | he'
    · calc e.bottom ≤ el.bottom := by
            unfold segOrdered at hpe
            omega
        _ ≤ lastBottom el.bottom rest' := lastBottom_ge hchain'
    · exact ih hchain' e he'

theorem chain_blocksFrom :
    ∀ (hs : List Int), (∀ h ∈ hs, 0 ≤ h) →
    ∀ (off : Int) (prev : SegElement), prev.bottom ≤ off →
      List.Chain segOrdered prev (blocksFrom off hs) := by
  intro hs
  induction hs with
  | nil => intro _ off prev _; exact List.Chain.nil
  | cons h t ih =>
    intro hnn off prev hle
    refine List.Chain.cons ⟨hle, ?_⟩ ?_
    · have := hnn h (List.mem_cons_self _ _)
      simp only
      omega
    · exact ih (fun x hx => hnn x (List.mem_cons_of_mem _ hx)) (off + h) _ (by simp)


/-! Claim theorems. -/
/-- C4: for every non-empty `ranks` with `1 ≤ min ≤ max ≤ 1000` and every
`rank_threshold` in `{5, 10, 20}`, the rank badge's tier class is `top`
iff `min(ranks) ≤ 3`, `high` iff `3 < min(ranks) ≤ rank_threshold`, and
empty otherwise — and the new-items path classifies exactly like the
hotlist path. -/
theorem c4_rank_tier (ranks : List Int) (t : Int)
    (hne : ranks ≠ []) (h1 : 1 ≤ listMin ranks) (h2 : listMax ranks ≤ 1000)
    (ht : t = 5 ∨ t = 10 ∨ t = 20) :
    (hotlistRankClass (listMin ranks) t = "top" ↔ listMin ranks ≤ 3) ∧
    (hotlistRankClass (listMin ranks) t = "high" ↔
      (3 < listMin ranks ∧ listMin ranks ≤ t)) ∧
    (hotlistRankClass (listMin ranks) t = "" ↔
      (3 < listMin ranks ∧ t < listMin ranks)) ∧
    newItemRankClass (listMin ranks) t = hotlistRankClass (listMin ranks) t := by
  unfold hotlistRankClass newItemRankClass
  refine ⟨?_, ?_, ?_, rfl⟩ <;> split_ifs with ha hb <;>
    simp_all <;> first | omega | (intro hc; omega) | decide

theorem c4_rank_tier_witness :
    (hotlistRankClass (listMin [2, 5]) 10 = "top" ↔ listMin [2, 5] ≤ 3) ∧
    (hotlistRankClass (listMin [2, 5]) 10 = "high" ↔
      (3 < listMin [2, 5] ∧ listMin [2, 5] ≤ 10)) ∧
    (hotlistRankClass (listMin [2, 5]) 10 = "" ↔
      (3 < listMin [2, 5] ∧ 10 < listMin [2, 5])) ∧
    newItemRankClass (listMin [2, 5]) 10 = hotlistRankClass (listMin [2, 5]) 10 :=
  c4_rank_tier [2, 5] 10 (by decide) (by decide) (by decide) (by decide)

/-- C5 counterexample: in the new-items path a ranks list `[5, 5]` (same
rank seen twice, so `min = max = 5`) renders as `5-5`, not as the bare
minimum the claim requires. -/
theorem c5_counterexample :
    newItemRankText [5, 5] = "5-5" ∧ newItemRankText [5, 5] ≠ toString (5 : Int) := by
  constructor
  · rfl
  · decide

/-- C5 amended: the hotlist and standalone paths render `min` alone
exactly when `min = max` and `min-max` otherwise; the new-items path
instead keys on the length of `ranks`: a single stored rank renders
alone, any longer list renders `min-max` (even when `min = max`). -/
theorem c5_rank_text (mn mx : Int) (ranks : List Int) :
    (mn = mx → hotlistRankText mn mx = toString mn) ∧
    (mn ≠ mx → hotlistRankText mn mx = toString mn ++ "-" ++ toString mx) ∧
    standaloneRankText mn mx = hotlistRankText mn mx ∧
    (ranks.length = 1 → newItemRankText ranks = toString (ranks.headD 0)) ∧
    (ranks.length ≠ 1 →
      newItemRankText ranks
        = toString (listMin ranks) ++ "-" ++ toString (listMax ranks)) := by
  unfold hotlistRankText standaloneRankText newItemRankText
  refine ⟨fun h => by simp [h], fun h => by simp [h], rfl, fun h => by simp [h],
    fun h => by simp [h]⟩

theorem c5_rank_text_witness :
    ((2 : Int) = 5 → hotlistRankText 2 5 = toString (2 : Int)) ∧
    ((2 : Int) ≠ 5 → hotlistRankText 2 5 = toString (2 : Int) ++ "-" ++ toString (5 : Int)) ∧
    standaloneRankText 2 5 = hotlistRankText 2 5 ∧
    (([5, 5] : List Int).length = 1 → newItemRankText [5, 5] = toString (([5, 5] : List Int).headD 0)) ∧
    (([5, 5] : List Int).length ≠ 1 →
      newItemRankText [5, 5] = toString (listMin [5, 5]) ++ "-" ++ toString (listMax [5, 5])) :=
  c5_rank_text 2 5 [5, 5]

/-- C6 counterexample: a standalone platform item with no `first_time`
but a `last_time` of `12:30` renders no time element at all, instead of
rendering the one present token alone. -/
theorem c6_counterexample :
    standaloneTimeHtml "" "12:30" = "" ∧
    standaloneTimeHtml "" "12:30"
      ≠ lit1220_a ++ html_escape (convert_time_for_display "12:30") ++ lit1220_b := by
  constructor
  · rfl
  · decide

/-- C6 amended: the time element renders `first~last` when both tokens
are present and differ; it renders `first` alone whenever `first` is
present and `last` is absent or equal; and it is omitted entirely
whenever `first` is absent — even if `last` is present. -/
theorem c6_time_range (f l : String) :
    (f ≠ "" ∧ l ≠ "" ∧ f ≠ l →
      standaloneTimeHtml f l
        = lit1217_a ++ html_escape (convert_time_for_display f) ++ lit1217_b
          ++ html_escape (convert_time_for_display l) ++ lit1217_c) ∧
    (f ≠ "" ∧ (l = "" ∨ f = l) →
      standaloneTimeHtml f l
        = lit1220_a ++ html_escape (convert_time_for_display f) ++ lit1220_b) ∧
    (f = "" → standaloneTimeHtml f l = "") := by
  unfold standaloneTimeHtml
  refine ⟨fun h => ?_, fun h => ?_, fun h => ?_⟩
  · rw [if_pos h]
  · rw [if_neg (by tauto), if_pos h.1]
  · rw [if_neg (by tauto), if_neg (by tauto)]

theorem c6_time_range_witness :
    standaloneTimeHtml "08-00" "12-30"
      = lit1217_a ++ html_escape (convert_time_for_display "08-00") ++ lit1217_b
        ++ html_escape (convert_time_for_display "12-30") ++ lit1217_c :=
  (c6_time_range "08-00" "12-30").1 ⟨by decide, by decide, by decide⟩

/-- C7 counterexample: a standalone platform item carrying both a regular
and a mobile URL links to the regular URL — `url` takes precedence there,
not `mobileUrl`. -/
theorem c7_counterexample :
    standaloneLinkUrl
        { url := some "https://a.example/x", mobileUrl := some "https://m.example/x" }
      = "https://a.example/x" ∧
    standaloneLinkUrl
        { url := some "https://a.example/x", mobileUrl := some "https://m.example/x" }
      ≠ "https://m.example/x" := by
  constructor
  · rfl
  · decide

/-- C7 amended: in the hotlist and new-items paths a non-empty
`mobile_url` takes precedence over `url` (with `url` as fallback); in
the standalone path the precedence is reversed: a non-empty `url` wins
and `mobileUrl` is only the fallback. In every path an empty effective
link renders the escaped title as plain text with no anchor. -/
theorem c7_link_precedence (td : TitleData) (it : StandaloneItem) (t : String) :
    (td.mobile_url.getD "" ≠ "" →
      hotlistLinkUrl td = td.mobile_url.getD ""
        ∧ newItemLinkUrl td = td.mobile_url.getD "") ∧
    (td.mobile_url.getD "" = "" →
      hotlistLinkUrl td = td.url.getD "" ∧ newItemLinkUrl td = td.url.getD "") ∧
    (it.url.getD "" ≠ "" → standaloneLinkUrl it = it.url.getD "") ∧
    (it.url.getD "" = "" → standaloneLinkUrl it = it.mobileUrl.getD "") ∧
    newsLinkFragment "" t = t ∧
    rssLinkFragment "" t = t := by
  unfold hotlistLinkUrl newItemLinkUrl standaloneLinkUrl newsLinkFragment rssLinkFragment
  refine ⟨fun h => ⟨by rw [if_pos h], by rw [if_pos h]⟩,
    fun h => ⟨by rw [if_neg (by simp [h])], by rw [if_neg (by simp [h])]⟩,
    fun h => by rw [if_pos h],
    fun h => by rw [if_neg (by simp [h])],
    by rw [if_neg (by simp)],
    by rw [if_neg (by simp)]⟩

theorem c7_link_precedence_witness :
    (({ mobile_url := some "https://m.example/x", url := some "https://a.example/x" }
        : TitleData).mobile_url.getD "" ≠ "" →
      hotlistLinkUrl { mobile_url := some "https://m.example/x", url := some "https://a.example/x" }
        = ({ mobile_url := some "https://m.example/x", url := some "https://a.example/x" }
            : TitleData).mobile_url.getD ""
        ∧ newItemLinkUrl { mobile_url := some "https://m.example/x", url := some "https://a.example/x" }
        = ({ mobile_url := some "https://m.example/x", url := some "https://a.example/x" }
            : TitleData).mobile_url.getD "") :=
  (c7_link_precedence
    { mobile_url := some "https://m.example/x", url := some "https://a.example/x" }
    { } "t").1

/-- C9: for every feed-item timestamp string, the standalone renderer
yields the `month-day hour:minute` rendering exactly when the string
contains `T` and the (`Z`-normalised) string parses as an ISO timestamp;
whenever parsing fails the raw string is rendered verbatim; and in every
case the result is one of the two — the computation is total. -/
theorem c9_published_time (s : String) :
    (containsSub "T".data s.data = true →
      ∀ d, datetime_fromisoformat (pyReplace s "Z" "+00:00") = some d →
        renderPublishedTimeDisplay s = strftime_md_hm d) ∧
    (datetime_fromisoformat (pyReplace s "Z" "+00:00") = none →
      renderPublishedTimeDisplay s = s) ∧
    (renderPublishedTimeDisplay s = s ∨
      ∃ d, datetime_fromisoformat (pyReplace s "Z" "+00:00") = some d ∧
        renderPublishedTimeDisplay s = strftime_md_hm d) := by
  unfold renderPublishedTimeDisplay
  by_cases hT : containsSub "T".data s.data = true
  · rw [if_pos hT]
    rcases hp : datetime_fromisoformat (pyReplace s "Z" "+00:00") with _ | d
    · refine ⟨fun hc d hd => ?_, fun hn => rfl, Or.inl rfl⟩
      cases hd
    · refine ⟨fun _ d' hd' => ?_, fun hn => ?_, Or.inr ⟨d, rfl, rfl⟩⟩
      · injection hd' with h
        rw [h]
      · cases hn
  · rw [if_neg hT]
    exact ⟨fun hc => absurd hc hT, fun _ => rfl, Or.inl rfl⟩

theorem c9_published_time_witness :
    renderPublishedTimeDisplay "2025-01-07T08:30:00"
      = strftime_md_hm ⟨2025, 1, 7, 8, 30, 0⟩ ∧
    renderPublishedTimeDisplay "not-a-Time" = "not-a-Time" :=
  ⟨(c9_published_time "2025-01-07T08:30:00").1 (by decide)
      ⟨2025, 1, 7, 8, 30, 0⟩ (by decide),
    (c9_published_time "not-a-Time").2.1 (by decide)⟩

set_option maxRecDepth 10000 in
/-- C1: for every region order and all well-formed region contents the
assembly loop of `render_html_content` (starting from any already
accumulated html and `has_previous_content = false`) appends exactly the
non-empty content parts in order, marking every part but the first with
the section divider — so exactly `max(0, n - 1)` parts carry a divider
marker for `n` appended parts (`new_items` contributing its hotlist-delta
and RSS-delta sub-parts as two independent parts), and the first
appended part never carries one. The error block and the footer sit
outside the loop in `render_html_content` and carry no divider marker
themselves (checked here on the footer fragment and on error blocks for
no and one failed id). -/
theorem c1_divider_placement (order : List String) (rc : RegionContents)
    (acc : String) (hg : GoodRC rc) :
    (List.foldl (assembleStep rc) (acc, false) order).1
        = acc ++ concatAll (markTail (emittedParts order rc)) ∧
    (markTail (emittedParts order rc)).countP hasDividerMark
        = (emittedParts order rc).length - 1 ∧
    (∀ p, (markTail (emittedParts order rc)).head? = some p →
      hasDividerMark p = false) ∧
    hasDividerMark (errorSectionHtml []) = false ∧
    hasDividerMark (errorSectionHtml ["zhihu"]) = false ∧
    hasDividerMark (updateInfoFragment none) = false ∧
    hasDividerMark lit1365 = false := by
  have hall : ∀ p ∈ emittedParts order rc, GoodStr p ∧ p ≠ "" := by
    intro p hp
    obtain ⟨hsrc, hne⟩ := emittedParts_mem rc order p hp
    obtain ⟨g1, g2, g3, g4, g5, g6⟩ := hg
    rcases hsrc with rfl | rfl | rfl | rfl | rfl | rfl <;> exact ⟨by assumption, hne⟩
  have hmf := markTail_facts hall
  refine ⟨?_, hmf.1, hmf.2, by decide, by decide, by decide, by decide⟩
  rw [fold_false]

set_option maxRecDepth 10000 in
theorem c1_divider_placement_witness :
    (List.foldl
        (assembleStep
          { hotlist := "<div class=\"hotlist-section\">x</div>", rss := "",
            newItemsHot := "<div class=\"new-section\">y</div>", newItemsRss := "",
            standalone := "", aiAnalysis := "" })
        ("", false) defaultRegionOrder).1
      = "" ++ concatAll (markTail (emittedParts defaultRegionOrder
          { hotlist := "<div class=\"hotlist-section\">x</div>", rss := "",
            newItemsHot := "<div class=\"new-section\">y</div>", newItemsRss := "",
            standalone := "", aiAnalysis := "" })) ∧
    (markTail (emittedParts defaultRegionOrder
          { hotlist := "<div class=\"hotlist-section\">x</div>", rss := "",
            newItemsHot := "<div class=\"new-section\">y</div>", newItemsRss := "",
            standalone := "", aiAnalysis := "" })).countP hasDividerMark
      = (emittedParts defaultRegionOrder
          { hotlist := "<div class=\"hotlist-section\">x</div>", rss := "",
            newItemsHot := "<div class=\"new-section\">y</div>", newItemsRss := "",
            standalone := "", aiAnalysis := "" }).length - 1 := by
  have h := c1_divider_placement defaultRegionOrder
    { hotlist := "<div class=\"hotlist-section\">x</div>", rss := "",
      newItemsHot := "<div class=\"new-section\">y</div>", newItemsRss := "",
      standalone := "", aiAnalysis := "" }
    "" (by refine ⟨?_, ?_, ?_, ?_, ?_, ?_⟩ <;>
          first | exact Or.inl rfl | exact Or.inr (by decide))
  exact ⟨h.1, h.2.1⟩

/-- C2: for every measured block list — header block first, starting at
offset 0 with positive height, the blocks laid out in document order
(each with `top ≤ bottom`, each starting no earlier than its
predecessor's bottom edge) — and every positive `maxSegmentHeight`, with
the document height equal to the last block's bottom edge: the produced
segments are non-empty, contiguous from offset 0 to the full document
height with non-negative extents (hence non-overlapping), every segment
boundary lies at offset 0 or at some block's bottom edge, and no block
whose own height is within the budget has a segment boundary strictly
inside its half-open interval. -/
theorem c2_segmentation_invariants
    (maxHeight : Int) (hd : SegElement) (rest : List SegElement)
    (containerHeight : Int)
    (hmax : 0 < maxHeight)
    (htop : hd.top = 0) (hpos : 0 < hd.bottom) (hh : hd.height = hd.bottom)
    (hchain : List.Chain segOrdered hd rest)
    (hcont : containerHeight = lastBottom hd.bottom rest) :
    saveAsMultipleImages maxHeight (hd :: rest) containerHeight ≠ [] ∧
    linked 0 (saveAsMultipleImages maxHeight (hd :: rest) containerHeight)
      containerHeight ∧
    (∀ s ∈ saveAsMultipleImages maxHeight (hd :: rest) containerHeight,
      (s.start = 0 ∨ ∃ e ∈ hd :: rest, s.start = e.bottom) ∧
      (s.segEnd = 0 ∨ ∃ e ∈ hd :: rest, s.segEnd = e.bottom)) ∧
    (∀ b ∈ hd :: rest, b.bottom - b.top ≤ maxHeight →
      ∀ s ∈ saveAsMultipleImages maxHeight (hd :: rest) containerHeight,
        ¬ (b.top < s.start ∧ s.start < b.bottom) ∧
        ¬ (b.top < s.segEnd ∧ s.segEnd < b.bottom)) :=
  segmentation_props maxHeight hd rest containerHeight hmax htop hpos hh hchain hcont

theorem c2_segmentation_invariants_witness :
    saveAsMultipleImages 3333
        ({ top := 0, bottom := 400, height := 400 }
          :: blocksFrom 400 [1500, 1500, 1500, 300]) 5200 ≠ [] ∧
    linked 0 (saveAsMultipleImages 3333
        ({ top := 0, bottom := 400, height := 400 }
          :: blocksFrom 400 [1500, 1500, 1500, 300]) 5200) 5200 := by
  have h := c2_segmentation_invariants 3333 { top := 0, bottom := 400, height := 400 }
    (blocksFrom 400 [1500, 1500, 1500, 300]) 5200
    (by decide) (by decide) (by decide) (by decide)
    (chain_blocksFrom [1500, 1500, 1500, 300] (by decide) 400 _ (by decide))
    (by decide)
  exact ⟨h.1, h.2.1⟩

/-- C3 counterexample: for the measured block list header (height 400),
entry item (height 6000, exceeding the budget 3333), footer (height 300),
no produced segment both contains the oversized entry-item block and
contains no other block: the segment holding it also holds the header.
So the oversized block is not placed alone in its own segment. -/
theorem c3_counterexample :
    ¬ (∃ s ∈ saveAsMultipleImages 3333 (blocksFrom 0 [400, 6000, 300]) 6700,
        s.start ≤ 400 ∧ 6400 ≤ s.segEnd ∧
        ∀ b ∈ blocksFrom 0 [400, 6000, 300],
          b ≠ { top := 400, bottom := 6400, height := 6000 } →
          ¬ (b.top < s.segEnd ∧ s.start < b.bottom)) := by
  decide

/-- C3 amended: a block whose own height exceeds `maxSegmentHeight` is
never split — no segment boundary falls strictly inside it, and it lies
wholly inside a single segment, whose height is then allowed to exceed
the budget — but that segment may also contain neighbouring blocks (the
header when the oversized block directly follows a header-only prefix).
For a segmentation input consisting of the single entry-item block of
height 6000 with budget 3333 the output is exactly one segment of height
6000 containing only that block. -/
theorem c3_oversize_block_atomic
    (maxHeight : Int) (hd : SegElement) (rest : List SegElement)
    (containerHeight : Int)
    (hmax : 0 < maxHeight)
    (htop : hd.top = 0) (hpos : 0 < hd.bottom) (hh : hd.height = hd.bottom)
    (hchain : List.Chain segOrdered hd rest)
    (hcont : containerHeight = lastBottom hd.bottom rest)
    (b : SegElement) (hb : b ∈ hd :: rest) (hbig : maxHeight < b.bottom - b.top) :
    (∃ s ∈ saveAsMultipleImages maxHeight (hd :: rest) containerHeight,
      s.start ≤ b.top ∧ b.bottom ≤ s.segEnd ∧ maxHeight < s.segEnd - s.start) ∧
    (∀ s ∈ saveAsMultipleImages maxHeight (hd :: rest) containerHeight,
      ¬ (b.top < s.start ∧ s.start < b.bottom) ∧
      ¬ (b.top < s.segEnd ∧ s.segEnd < b.bottom)) ∧
    saveAsMultipleImages 3333 (blocksFrom 0 [6000]) 6000
      = [{ start := 0, segEnd := 6000, height := 6000, includeHeader := true }] := by
  obtain ⟨hne, hlink, hbound, _⟩ :=
    segmentation_props maxHeight hd rest containerHeight hmax htop hpos hh hchain hcont
  have hpair := chain_pairwise hchain
  have htops : ∀ e ∈ hd :: rest, 0 ≤ e.top ∧ e.top ≤ e.bottom := by
    intro e he
    rcases List.mem_cons.mp he with rfl | he'
    · constructor <;> omega
    · have := (List.pairwise_cons.mp hpair).1 e he'
      unfold segOrdered at this
      constructor <;> omega
  have hnotin : ∀ x : Int,
      (x = 0 ∨ ∃ e ∈ hd :: rest, x = e.bottom) → ¬ (b.top < x ∧ x < b.bottom) := by
    intro x hx ⟨h1, h2⟩
    rcases hx with rfl | ⟨e, he, rfl⟩
    · have := (htops b hb).1
      omega
    · rcases pairwise_mem_cases hpair hb he with hR | rfl | hR
      · have h3 : b.bottom ≤ e.bottom := by
          unfold segOrdered at hR
          omega
        omega
      · omega
      · have := hR.1
        omega
  have hnosplit : ∀ s ∈ saveAsMultipleImages maxHeight (hd :: rest) containerHeight,
      ¬ (b.top < s.start ∧ s.start < b.bottom) ∧
      ¬ (b.top < s.segEnd ∧ s.segEnd < b.bottom) := by
    intro s hs
    exact ⟨hnotin s.start (hbound s hs).1, hnotin s.segEnd (hbound s hs).2⟩
  refine ⟨?_, hnosplit, by decide⟩
  have hbC : b.bottom ≤ containerHeight := by
    rw [hcont]
    exact mem_bottom_le_lastBottom hchain b hb
  have h0t : 0 ≤ b.top := (htops b hb).1
  obtain ⟨s, hs, h1, h2⟩ := linked_covers hlink h0t (by omega)
  refine ⟨s, hs, h1, ?_, ?_⟩
  · by_contra hlt
    exact (hnosplit s hs).2 ⟨h2, by omega⟩
  · have : b.bottom ≤ s.segEnd := by
      by_contra hlt
      exact (hnosplit s hs).2 ⟨h2, by omega⟩
    omega

theorem c3_oversize_block_atomic_witness :
    ∃ s ∈ saveAsMultipleImages 3333
        ({ top := 0, bottom := 400, height := 400 } :: blocksFrom 400 [6000, 300]) 6700,
      s.start ≤ ({ top := 400, bottom := 6400, height := 6000 } : SegElement).top ∧
      ({ top := 400, bottom := 6400, height := 6000 } : SegElement).bottom ≤ s.segEnd ∧
      3333 < s.segEnd - s.start := by
  have h := c3_oversize_block_atomic 3333 { top := 0, bottom := 400, height := 400 }
    (blocksFrom 400 [6000, 300]) 6700
    (by decide) (by decide) (by decide) (by decide)
    (chain_blocksFrom [6000, 300] (by decide) 400 _ (by decide))
    (by decide)
    { top := 400, bottom := 6400, height := 6000 } (by decide) (by decide)
  exact h.1

theorem renderHotlistTitle_ok (dm : String) (j : Nat) {td : TitleData}
    (ht : td.title ≠ none) (hs : dm = "keyword" → td.source_name ≠ none) :
    ∃ o, renderHotlistTitle dm j td = Except.ok o := by
  obtain ⟨t, hteq⟩ := Option.ne_none_iff_exists'.mp ht
  by_cases hk : dm = "keyword"
  · obtain ⟨s, hseq⟩ := Option.ne_none_iff_exists'.mp (hs hk)
    exact ⟨_, by simp [renderHotlistTitle, hk, hteq, hseq, getKey, bind, Except.bind, pure, Except.pure]; try rfl⟩
  · exact ⟨_, by simp [renderHotlistTitle, hk, hteq, getKey, bind, Except.bind, pure, Except.pure]; try rfl⟩

theorem renderHotlistTitles_ok {dm : String} {l : List TitleData}
    (h : ∀ td ∈ l, td.title ≠ none ∧ (dm = "keyword" → td.source_name ≠ none)) :
    ∀ j, ∃ o, renderHotlistTitles dm j l = Except.ok o := by
  induction l with
  | nil => exact fun j => ⟨"", rfl⟩
  | cons td rest ih =>
    intro j
    obtain ⟨o1, h1⟩ := renderHotlistTitle_ok dm j
      (h td (List.mem_cons_self _ _)).1 (h td (List.mem_cons_self _ _)).2
    obtain ⟨o2, h2⟩ := ih (fun x hx => h x (List.mem_cons_of_mem _ hx)) (j + 1)
    exact ⟨o1 ++ o2, by simp [renderHotlistTitles, h1, h2, bind, Except.bind, pure, Except.pure]; try rfl⟩

theorem renderStatBlock_ok (dm : String) (tc i : Nat) {st : Stat}
    (h : ∀ td ∈ st.titles, td.title ≠ none ∧ (dm = "keyword" → td.source_name ≠ none)) :
    ∃ o, renderStatBlock dm tc i st = Except.ok o := by
  obtain ⟨o, ho⟩ := renderHotlistTitles_ok h 1
  exact ⟨_, by simp [renderStatBlock, ho, bind, Except.bind, pure, Except.pure]; try rfl⟩

theorem renderStatBlocks_ok (dm : String) (tc : Nat) {l : List Stat}
    (h : ∀ st ∈ l, ∀ td ∈ st.titles,
      td.title ≠ none ∧ (dm = "keyword" → td.source_name ≠ none)) :
    ∀ i, ∃ o, renderStatBlocks dm tc i l = Except.ok o := by
  induction l with
  | nil => exact fun i => ⟨"", rfl⟩
  | cons st rest ih =>
    intro i
    obtain ⟨o1, h1⟩ := renderStatBlock_ok dm tc i
      (h st (List.mem_cons_self _ _))
    obtain ⟨o2, h2⟩ := ih (fun x hx => h x (List.mem_cons_of_mem _ hx)) (i + 1)
    exact ⟨o1 ++ o2, by simp [renderStatBlocks, h1, h2, bind, Except.bind, pure, Except.pure]; try rfl⟩

theorem buildHotlistSection_ok {dm : String} {stats : List Stat}
    (h : ∀ st ∈ stats, ∀ td ∈ st.titles,
      td.title ≠ none ∧ (dm = "keyword" → td.source_name ≠ none)) :
    ∃ o, buildHotlistSection dm stats = Except.ok o := by
  by_cases hne : stats = []
  · exact ⟨"", by simp [buildHotlistSection, buildStatsHtml, hne, bind, Except.bind, pure, Except.pure]; try rfl⟩
  · obtain ⟨o, ho⟩ := renderStatBlocks_ok dm stats.length h 1
    exact ⟨_, by simp [buildHotlistSection, buildStatsHtml, hne, ho, bind, Except.bind, pure, Except.pure]; try rfl⟩

theorem renderNewTitleItem_ok (idx : Nat) {td : TitleData}
    (ht : td.title ≠ none) :
    ∃ o, renderNewTitleItem idx td = Except.ok o := by
  obtain ⟨t, hteq⟩ := Option.ne_none_iff_exists'.mp ht
  exact ⟨_, by simp [renderNewTitleItem, hteq, getKey, bind, Except.bind, pure, Except.pure]; try rfl⟩

theorem renderNewTitleItems_ok {l : List TitleData}
    (h : ∀ td ∈ l, td.title ≠ none) :
    ∀ idx, ∃ o, renderNewTitleItems idx l = Except.ok o := by
  induction l with
  | nil => exact fun idx => ⟨"", rfl⟩
  | cons td rest ih =>
    intro idx
    obtain ⟨o1, h1⟩ := renderNewTitleItem_ok idx (h td (List.mem_cons_self _ _))
    obtain ⟨o2, h2⟩ := ih (fun x hx => h x (List.mem_cons_of_mem _ hx)) (idx + 1)
    exact ⟨o1 ++ o2, by simp [renderNewTitleItems, h1, h2, bind, Except.bind, pure, Except.pure]; try rfl⟩

theorem renderNewSourceGroup_ok {sd : SourceNewTitles}
    (hs : sd.source_name ≠ none) (h : ∀ td ∈ sd.titles, td.title ≠ none) :
    ∃ o, renderNewSourceGroup sd = Except.ok o := by
  obtain ⟨s, hseq⟩ := Option.ne_none_iff_exists'.mp hs
  obtain ⟨o, ho⟩ := renderNewTitleItems_ok h 1
  exact ⟨_, by simp [renderNewSourceGroup, hseq, getKey, ho, bind, Except.bind, pure, Except.pure]; try rfl⟩

theorem renderNewSourceGroups_ok {l : List SourceNewTitles}
    (h : ∀ sd ∈ l, sd.source_name ≠ none ∧ ∀ td ∈ sd.titles, td.title ≠ none) :
    ∃ o, renderNewSourceGroups l = Except.ok o := by
  induction l with
  | nil => exact ⟨"", rfl⟩
  | cons sd rest ih =>
    obtain ⟨o1, h1⟩ := renderNewSourceGroup_ok (h sd (List.mem_cons_self _ _)).1
      (h sd (List.mem_cons_self _ _)).2
    obtain ⟨o2, h2⟩ := ih (fun x hx => h x (List.mem_cons_of_mem _ hx))
    exact ⟨o1 ++ o2, by simp [renderNewSourceGroups, h1, h2, bind, Except.bind, pure, Except.pure]; try rfl⟩

theorem buildNewTitlesHtml_ok (sns : Bool) {rd : ReportData}
    (h : ∀ sd ∈ rd.new_titles, sd.source_name ≠ none ∧
      ∀ td ∈ sd.titles, td.title ≠ none) :
    ∃ o, buildNewTitlesHtml sns rd = Except.ok o := by
  by_cases hc : sns = true ∧ rd.new_titles ≠ []
  · obtain ⟨o, ho⟩ := renderNewSourceGroups_ok h
    exact ⟨_, by simp [buildNewTitlesHtml, hc, ho, bind, Except.bind, pure, Except.pure]; try rfl⟩
  · exact ⟨"", by simp [buildNewTitlesHtml, hc, bind, Except.bind, pure, Except.pure]; try rfl⟩

/-- C8 amended: `render_html_content` succeeds — every absent optional
field (`matched_keyword`, `ranks`, `rank_threshold`, `time_display`,
`count`, `url`, `mobile_url`, `is_new`) degrades to an omitted display
element — provided every hotlist entry carries a `title` (and, in the
keyword display mode, a `source_name`) and every new-items group carries
a `source_name` with titled entries; those fields are read with direct
dictionary indexing and their absence raises a `KeyError`. -/
theorem c8_graceful_degradation (rd : ReportData) (tt : Int) (mode : String)
    (u : Option UpdateInfo) (ro : Option (List String))
    (gtf : Option (Unit → PyDateTime)) (snow : PyDateTime)
    (rssi rssn : Option (List RssStat)) (dm : String) (sd : Option StandaloneData)
    (ai : Option AIAnalysis) (sns : Bool)
    (hstats : ∀ st ∈ rd.stats, ∀ td ∈ st.titles,
      td.title ≠ none ∧ (dm = "keyword" → td.source_name ≠ none))
    (hnew : ∀ sg ∈ rd.new_titles, sg.source_name ≠ none ∧
      ∀ td ∈ sg.titles, td.title ≠ none) :
    ∃ out, render_html_content rd tt mode u ro gtf snow rssi rssn dm sd ai sns
      = Except.ok out := by
  obtain ⟨o1, h1⟩ := buildHotlistSection_ok hstats
  obtain ⟨o2, h2⟩ := buildNewTitlesHtml_ok sns hnew
  exact ⟨_, by simp [render_html_content, h1, h2, bind, Except.bind, pure, Except.pure]; try rfl⟩

theorem c8_graceful_degradation_witness :
    ∃ out, render_html_content
      ⟨[⟨"w", 1, [{ title := some "T", source_name := some "S" }]⟩],
        [⟨some "S", [{ title := some "T2" }]⟩], ["zhihu"], 1⟩
      5 "daily" none none none ⟨2025, 1, 1, 8, 0, 0⟩ none none "keyword"
      none none true = Except.ok out := by
  apply c8_graceful_degradation
  · intro st hst td htd
    simp at hst
    subst hst
    simp at htd
    subst htd
    exact ⟨by simp, fun _ => by simp⟩
  · intro sg hsg
    simp at hsg
    subst hsg
    refine ⟨by simp, ?_⟩
    intro td htd
    simp at htd
    subst htd
    simp

/-- C8 counterexample: a hotlist record with no `title` key makes
`render_html_content` raise a `KeyError` instead of degrading
gracefully (`title_data["title"]`, html.py line 903). -/
theorem c8_counterexample :
    render_html_content
      ⟨[⟨"w", 1, [{ source_name := some "s" }]⟩], [], [], 0⟩
      0 "daily" none none none ⟨2025, 1, 1, 8, 0, 0⟩ none none "keyword"
      none none true = Except.error "KeyError: title" := rfl

/-- C10 amended: with a time source supplied (`get_time_func`), the
composition is a pure function of its arguments — two calls with the
same report data and configuration give byte-identical output no matter
what the ambient wall clock reads; without one, the generation-time
header field is read from the wall clock, so two calls with identical
arguments can differ (see the counterexample). -/
theorem c10_deterministic_with_time_func (rd : ReportData) (tt : Int)
    (mode : String) (u : Option UpdateInfo) (ro : Option (List String))
    (f : Unit → PyDateTime) (s1 s2 : PyDateTime)
    (rssi rssn : Option (List RssStat)) (dm : String)
    (sd : Option StandaloneData) (ai : Option AIAnalysis) (sns : Bool) :
    render_html_content rd tt mode u ro (some f) s1 rssi rssn dm sd ai sns
      = render_html_content rd tt mode u ro (some f) s2 rssi rssn dm sd ai sns := rfl

/-- C10 counterexample: two calls of `render_html_content` with
byte-identical report data and configuration arguments (and
`get_time_func` omitted) produce different output when the ambient wall
clock has moved from 08:00 to 08:01 — the generation-time header field
differs. -/
theorem c10_counterexample :
    render_html_content ⟨[], [], [], 0⟩ 0 "daily" none none none
        ⟨2025, 1, 1, 8, 0, 0⟩ none none "keyword" none none true
      ≠ render_html_content ⟨[], [], [], 0⟩ 0 "daily" none none none
        ⟨2025, 1, 1, 8, 1, 0⟩ none none "keyword" none none true := by
  intro h
  have e1 : render_html_content ⟨[], [], [], 0⟩ 0 "daily" none none none
      ⟨2025, 1, 1, 8, 0, 0⟩ none none "keyword" none none true
      = Except.ok ((List.foldl
          (assembleStep (regionContentsOf "" "" none none none none))
          (htmlPreOf ⟨[], [], [], 0⟩ 0 "daily" ⟨2025, 1, 1, 8, 0, 0⟩, false)
          defaultRegionOrder).1
        ++ lit1365 ++ updateInfoFragment none ++ lit1382) := rfl
  have e2 : render_html_content ⟨[], [], [], 0⟩ 0 "daily" none none none
      ⟨2025, 1, 1, 8, 1, 0⟩ none none "keyword" none none true
      = Except.ok ((List.foldl
          (assembleStep (regionContentsOf "" "" none none none none))
          (htmlPreOf ⟨[], [], [], 0⟩ 0 "daily" ⟨2025, 1, 1, 8, 1, 0⟩, false)
          defaultRegionOrder).1
        ++ lit1365 ++ updateInfoFragment none ++ lit1382) := rfl
  rw [e1, e2] at h
  simp only [Except.ok.injEq] at h
  rw [fold_false, fold_false] at h
  have hparts : concatAll (markTail (emittedParts defaultRegionOrder
      (regionContentsOf "" "" none none none none))) = "" := by decide
  rw [hparts] at h
  have hd := congrArg String.data h
  simp only [htmlPreOf, String.data_append, List.append_assoc] at hd
  replace hd := List.append_cancel_left hd
  replace hd := List.append_cancel_left hd
  replace hd := List.append_cancel_left hd
  replace hd := List.append_cancel_left hd
  replace hd := List.append_cancel_left hd
  replace hd := List.append_cancel_left hd
  replace hd := List.append_cancel_left hd
  replace hd := List.append_cancel_left hd
  replace hd := List.append_cancel_left hd
  have hs1 : strftime_md_hm ⟨2025, 1, 1, 8, 0, 0⟩ = "01-01 08:00" := rfl
  have hs2 : strftime_md_hm ⟨2025, 1, 1, 8, 1, 0⟩ = "01-01 08:01" := rfl
  rw [hs1, hs2] at hd
  replace hd := List.append_cancel_right hd
  exact absurd hd (by decide)
